import Mathlib

/-!
Verification development for the `sideeye` BEC (Business Email Compromise)
detection engine: a shallow embedding in Lean 4 of the trust-graph,
temporal-pattern, stylometry and fusion modules
(`src/trust_graph.py`, `src/temporal_analyzer.py`,
`src/stylometry_engine.py`, `src/bec_scorer.py`), together with theorems
settling the frozen specification claims.

Embedding conventions:
- Python floats are modelled as real numbers (`ℝ`).
- `datetime` timestamps are modelled as integer seconds; `timestamp.hour`
  is `(t / 3600) mod 24` and `timestamp.weekday()` is
  `(t / 86400 + 3) mod 7` (the epoch day is a Thursday, weekday 3), with
  Python floor division/modulo modelled by `Int.fdiv` / `Int.fmod`.
  `datetime.now()` is an explicit `now : ℤ` argument threaded to every
  function whose Python source reads the wall clock.
- Python `dict`s are association lists preserving insertion order;
  `dict.get` is `lookupA`; `defaultdict` creation-on-append is explicit.
- Formatted risk-factor strings keep only their identifying label
  (for example `"TIMEZONE_MISMATCH"`); the interpolated numerals of the
  Python `f`-strings are dropped.
-/

/-! ## Generic helpers: association lists, Python min/max/mean/stdev/mode -/

/-- ASCII lowercasing of one character (Python `str.lower` on the ASCII
range), defined by explicit cases so that it reduces on literals. -/
def lowerChar : Char → Char
  | 'A' => 'a' | 'B' => 'b' | 'C' => 'c' | 'D' => 'd' | 'E' => 'e'
  | 'F' => 'f' | 'G' => 'g' | 'H' => 'h' | 'I' => 'i' | 'J' => 'j'
  | 'K' => 'k' | 'L' => 'l' | 'M' => 'm' | 'N' => 'n' | 'O' => 'o'
  | 'P' => 'p' | 'Q' => 'q' | 'R' => 'r' | 'S' => 's' | 'T' => 't'
  | 'U' => 'u' | 'V' => 'v' | 'W' => 'w' | 'X' => 'x' | 'Y' => 'y'
  | 'Z' => 'z'
  | c => c

/-- Python `str.lower()` (ASCII). -/
def pyLower (s : String) : String := String.mk (s.data.map lowerChar)

/-- Python `str.endswith(suff)`. -/
def pyEndsWith (s suff : String) : Bool := List.isSuffixOf suff.data s.data

/-- Python `str.strip()` (ASCII whitespace). -/
def pyTrim (s : String) : String :=
  String.mk (((s.data.dropWhile Char.isWhitespace).reverse.dropWhile
    Char.isWhitespace).reverse)

/-- Lookup in an insertion-ordered association list (`dict.get`). -/
def lookupA {K V : Type} [BEq K] (l : List (K × V)) (k : K) : Option V :=
  (l.find? (fun p => p.1 == k)).map (·.2)

/-- Update the (first) entry with the given key by a function, leaving
other entries alone. -/
def updA {K V : Type} [BEq K] (l : List (K × V)) (k : K) (f : V → V) :
    List (K × V) :=
  l.map (fun p => if p.1 == k then (p.1, f p.2) else p)

/-- `min` of a nonempty Python iterable of ints (0 on the empty list,
which the source never passes). -/
def pyMin (l : List ℤ) : ℤ :=
  match l with
  | [] => 0
  | x :: xs => xs.foldl min x

/-- `max` of a nonempty Python iterable of ints. -/
def pyMax (l : List ℤ) : ℤ :=
  match l with
  | [] => 0
  | x :: xs => xs.foldl max x

/-- `statistics.mean` of a list of reals. -/
noncomputable def listMean (l : List ℝ) : ℝ := l.sum / l.length

/-- `statistics.stdev`: sample standard deviation (denominator `n - 1`). -/
noncomputable def listStdev (l : List ℝ) : ℝ :=
  Real.sqrt ((l.map (fun x => (x - listMean l) ^ 2)).sum / ((l.length : ℝ) - 1))

/-- `statistics.mode`: the first value attaining the maximal multiplicity
(Python ≥ 3.8 returns the first mode in encounter order). -/
def listMode (l : List ℤ) : ℤ :=
  let maxCount := pyMax (l.map (fun x => (l.count x : ℤ)))
  ((l.find? (fun x => (l.count x : ℤ) == maxCount)).getD 0)

/-- Python `a // b` (floor division). -/
def pyDiv (a b : ℤ) : ℤ := Int.fdiv a b

/-- Python `a % b` (floor modulo). -/
def pyMod (a b : ℤ) : ℤ := Int.fmod a b

/-- The hour of a timestamp given in epoch seconds (`timestamp.hour`). -/
def hourOf (t : ℤ) : ℤ := pyMod (pyDiv t 3600) 24

/-- The weekday of a timestamp (`timestamp.weekday()`, Monday = 0);
the epoch day 1970-01-01 is a Thursday (weekday 3). -/
def weekdayOf (t : ℤ) : ℤ := pyMod (pyDiv t 86400 + 3) 7

/-! ## TrustGraph (`src/trust_graph.py`) -/

/-- `EmailInteraction`: a single email interaction. -/
structure EmailInteraction where
  from_addr : String
  to_addr : String
  timestamp : ℤ
  subject : String
  has_payment_request : Bool := false
  amount_requested : ℝ := 0.0

/-- `NodeProfile`: profile for an email address node in the graph. -/
structure NodeProfile where
  address : String
  first_seen : Option ℤ := none
  last_seen : Option ℤ := none
  interaction_count : ℕ := 0
  incoming_count : ℕ := 0
  outgoing_count : ℕ := 0
  trust_score : ℝ := 0.5
  is_internal : Bool := false
  is_executive : Bool := false
  payment_requests_made : ℕ := 0
  payment_requests_fulfilled : ℕ := 0

/-- `TrustGraph`: email communication graph with trust propagation. -/
structure TrustGraph where
  org_domain : String
  nodes : List (String × NodeProfile) := []
  edges : List ((String × String) × List EmailInteraction) := []
  executives : List String := []

namespace TrustGraph

/-- `TrustGraph(organization_domain)`. -/
def init (organization_domain : String) : TrustGraph :=
  { org_domain := organization_domain }

/-- `is_internal`: check if an email belongs to the organization. -/
def isInternal (g : TrustGraph) (email : String) : Bool :=
  pyEndsWith (pyLower email) ("@" ++ g.org_domain)

/-- `add_executive`: mark an email as an executive. -/
def add_executive (g : TrustGraph) (email : String) : TrustGraph :=
  let g1 := { g with executives := g.executives ++ [pyLower email] }
  if (lookupA g1.nodes (pyLower email)).isSome then
    let nodes1 := updA g1.nodes (pyLower email)
      (fun n => { n with is_executive := true })
    { g1 with nodes := nodes1 }
  else g1

/-- The node created by `get_or_create_node` on first reference. -/
def freshNode (g : TrustGraph) (email : String) : NodeProfile :=
  { address := email
    is_internal := g.isInternal email
    is_executive := g.executives.contains email }

/-- The creation half of `get_or_create_node` (the caller then reads or
updates the stored node through the map, mirroring Python references). -/
def ensureNode (g : TrustGraph) (email : String) : TrustGraph :=
  let e := pyLower email
  if (lookupA g.nodes e).isSome then g
  else { g with nodes := g.nodes ++ [(e, g.freshNode e)] }

/-- Lookup a node by (already lowercased) address. -/
def node? (g : TrustGraph) (email : String) : Option NodeProfile :=
  lookupA g.nodes email

/-- Update a stored node in place. -/
def updNode (g : TrustGraph) (email : String) (f : NodeProfile → NodeProfile) :
    TrustGraph :=
  { g with nodes := updA g.nodes email f }

/-- `self.edges.get(key, [])`. -/
def edgesGet (g : TrustGraph) (k : String × String) : List EmailInteraction :=
  (lookupA g.edges k).getD []

/-- `self.edges[edge_key].append(interaction)` (a `defaultdict(list)`:
the key is created at the end on first touch). -/
def appendEdge (g : TrustGraph) (k : String × String) (i : EmailInteraction) :
    TrustGraph :=
  if (lookupA g.edges k).isSome then
    { g with edges := updA g.edges k (fun l => l ++ [i]) }
  else { g with edges := g.edges ++ [(k, [i])] }

/-- `add_interaction`: add an email interaction to the graph. Both
endpoint nodes are created first; then the sender node's fields, the
recipient node's fields and (for payment requests) the sender's payment
counter are updated through the map, so a self-loop sees its own earlier
updates exactly as the Python object references do. -/
def add_interaction (g : TrustGraph) (i : EmailInteraction) : TrustGraph :=
  let fa := pyLower i.from_addr
  let ta := pyLower i.to_addr
  let g1 := g.ensureNode fa
  let g2 := g1.ensureNode ta
  let g3 := g2.updNode fa (fun n =>
    { n with
      first_seen := some (n.first_seen.getD i.timestamp)
      last_seen := some i.timestamp
      interaction_count := n.interaction_count + 1
      outgoing_count := n.outgoing_count + 1 })
  let g4 := g3.updNode ta (fun n =>
    { n with
      first_seen := some (n.first_seen.getD i.timestamp)
      last_seen := some i.timestamp
      incoming_count := n.incoming_count + 1 })
  let g5 := if i.has_payment_request then
    g4.updNode fa (fun n =>
      { n with payment_requests_made := n.payment_requests_made + 1 })
    else g4
  g5.appendEdge (fa, ta) i

/-- The body of `calculate_relationship_strength` on the two directed
edge lists, evaluated at wall-clock time `now`. -/
noncomputable def strengthOf (now : ℤ)
    (outgoing incoming : List EmailInteraction) : ℝ :=
  if outgoing.isEmpty && incoming.isEmpty then 0.0
  else
    let total_interactions : ℕ := outgoing.length + incoming.length
    let recip : ℝ :=
      (min outgoing.length incoming.length : ℕ) /
        ((max (max outgoing.length incoming.length) 1 : ℕ) : ℝ)
    let all_interactions := outgoing ++ incoming
    let first := pyMin (all_interactions.map (·.timestamp))
    let last := pyMax (all_interactions.map (·.timestamp))
    let duration_days : ℤ := max 1 (pyDiv (last - first) 86400)
    let days_since_last : ℤ := pyDiv (now - last) 86400
    let recency_factor : ℝ := Real.exp (-(days_since_last : ℝ) / 90)
    let strength : ℝ :=
      Real.log (1 + (total_interactions : ℝ)) * 0.3 +
      recip * 0.3 +
      min ((duration_days : ℝ) / 365) 1 * 0.2 +
      recency_factor * 0.2
    min 1.0 strength

/-- `calculate_relationship_strength(from_addr, to_addr)` evaluated at
wall-clock time `now` (the source reads `datetime.now()`). -/
noncomputable def calculate_relationship_strength (g : TrustGraph) (now : ℤ)
    (from_addr to_addr : String) : ℝ :=
  let fa := pyLower from_addr
  let ta := pyLower to_addr
  strengthOf now (g.edgesGet (fa, ta)) (g.edgesGet (ta, fa))

/-- The trust score a node is (re)initialized to at the start of
`propagate_trust`. -/
noncomputable def initScore (n : NodeProfile) : ℝ :=
  if n.is_internal then 1.0 else if n.is_executive then 1.0 else 0.1

/-- The score `propagate_trust` computes for one node in one iteration,
from the previous iteration's snapshot `g`. -/
noncomputable def newScore (g : TrustGraph) (now : ℤ) (damping : ℝ)
    (addr : String) (n : NodeProfile) : ℝ :=
  if n.is_internal then 1.0
  else
    let contribs : List ℝ :=
      (g.edges.filter (fun e => e.1.2 == addr)).filterMap (fun e =>
        (g.node? e.1.1).map (fun fn =>
          fn.trust_score * g.calculate_relationship_strength now e.1.1 addr))
    if 0 < contribs.length then
      (1 - damping) * 0.1 + damping * (contribs.sum / contribs.length)
    else 0.1

/-- One synchronous iteration of `propagate_trust`: every node's score is
computed from the previous snapshot, then all scores are written back. -/
noncomputable def iterStep (g : TrustGraph) (now : ℤ) (damping : ℝ) :
    TrustGraph :=
  { g with nodes := g.nodes.map (fun p =>
      (p.1, { p.2 with trust_score := newScore g now damping p.1 p.2 })) }

/-- The initialization pass of `propagate_trust`. -/
noncomputable def initTrust (g : TrustGraph) : TrustGraph :=
  { g with nodes := g.nodes.map (fun p =>
      (p.1, { p.2 with trust_score := initScore p.2 })) }

/-- The iteration loop of `propagate_trust`. -/
noncomputable def propagateAux (now : ℤ) (damping : ℝ) :
    ℕ → TrustGraph → TrustGraph
  | 0, g => g
  | n + 1, g => propagateAux now damping n (g.iterStep now damping)

/-- `propagate_trust(iterations=10, damping=0.85)`. -/
noncomputable def propagate_trust (g : TrustGraph) (iterations : ℕ)
    (damping : ℝ) (now : ℤ) : TrustGraph :=
  propagateAux now damping iterations g.initTrust

/-- `get_trust_score`: current trust, or 0.0 for a never-observed address. -/
noncomputable def get_trust_score (g : TrustGraph) (email : String) : ℝ :=
  match g.node? (pyLower email) with
  | some n => n.trust_score
  | none => 0.0

/-- `_risk_level` of the trust graph. -/
noncomputable def riskLevel (score : ℝ) : String :=
  if 0.7 ≤ score then "CRITICAL"
  else if 0.5 ≤ score then "HIGH"
  else if 0.3 ≤ score then "MEDIUM"
  else "LOW"

/-- `_recommendation` of the trust graph. -/
noncomputable def recommendationOf (score : ℝ) : String :=
  if 0.7 ≤ score then "BLOCK: Manual verification required before proceeding"
  else if 0.5 ≤ score then
    "VERIFY: Confirm request through separate channel (phone call)"
  else if 0.3 ≤ score then "REVIEW: Examine request carefully before approval"
  else "PROCEED: Normal risk level"

/-- The result record of `analyze_payment_request`. -/
structure PaymentAnalysis where
  from_address : String
  to_address : String
  amount : ℝ
  trust_score : ℝ
  relationship_strength : ℝ
  risk_score : ℝ
  risk_level : String
  risk_factors : List String
  recommendation : String

/-- `analyze_payment_request(from_addr, to_addr, amount)` at time `now`. -/
noncomputable def analyze_payment_request (g : TrustGraph) (now : ℤ)
    (from_addr to_addr : String) (amount : ℝ) : PaymentAnalysis :=
  let fa := pyLower from_addr
  let ta := pyLower to_addr
  let from_node := g.node? fa
  let rel := g.calculate_relationship_strength now fa ta
  let trust := g.get_trust_score fa
  let risk : ℝ :=
    (match from_node with
     | none => 0.4
     | some n => if n.interaction_count < 5 then 0.2 else 0) +
    (if trust < 0.3 then 0.3 else if trust < 0.5 then 0.1 else 0) +
    (if rel < 0.2 then 0.25 else 0) +
    (match from_node with
     | some n => if n.payment_requests_made = 0 then 0.15 else 0
     | none => 0) +
    (if 10000 < amount ∧ trust < 0.5 then 0.2 else 0)
  let factors : List String :=
    (match from_node with
     | none => ["UNKNOWN_SENDER"]
     | some n => if n.interaction_count < 5 then ["LOW_HISTORY"] else []) ++
    (if trust < 0.3 then ["LOW_TRUST"]
     else if trust < 0.5 then ["MEDIUM_TRUST"] else []) ++
    (if rel < 0.2 then ["WEAK_RELATIONSHIP"] else []) ++
    (match from_node with
     | some n => if n.payment_requests_made = 0 then ["FIRST_PAYMENT_REQUEST"]
                 else []
     | none => []) ++
    (if 10000 < amount ∧ trust < 0.5 then ["HIGH_VALUE_LOW_TRUST"] else [])
  { from_address := fa
    to_address := ta
    amount := amount
    trust_score := trust
    relationship_strength := rel
    risk_score := min 1.0 risk
    risk_level := riskLevel risk
    risk_factors := factors
    recommendation := recommendationOf risk }

end TrustGraph

/-! ## TemporalAnalyzer (`src/temporal_analyzer.py`) -/

/-- `EmailEvent`: an email event with timing metadata. -/
structure EmailEvent where
  sender : String
  recipient : String
  timestamp : ℤ
  timezone_offset : ℤ := 0
  claimed_timezone : String := ""
  response_to : Option String := none
  message_id : String := ""

/-- `TemporalProfile`: pattern-of-life profile for an email address. -/
structure TemporalProfile where
  address : String
  hourly_distribution : List (ℤ × ℕ) := []
  daily_distribution : List (ℤ × ℕ) := []
  response_times : List ℝ := []
  observed_timezones : List ℤ := []
  total_emails : ℕ := 0
  avg_response_time : ℝ := 0.0
  std_response_time : ℝ := 0.0
  primary_timezone : ℤ := 0
  active_hours : List ℤ := []

/-- `TemporalAnalyzer`. -/
structure TemporalAnalyzer where
  profiles : List (String × TemporalProfile) := []
  email_threads : List (String × List EmailEvent) := []

namespace TemporalAnalyzer

/-- Bump a `defaultdict(int)` histogram bucket. -/
def bump (h : List (ℤ × ℕ)) (k : ℤ) : List (ℤ × ℕ) :=
  if (lookupA h k).isSome then updA h k (· + 1) else h ++ [(k, 1)]

/-- Update one profile through `get_or_create_profile` (creating it on
first reference, keyed by lowercased address). -/
def withProfile (a : TemporalAnalyzer) (email : String)
    (f : TemporalProfile → TemporalProfile) : TemporalAnalyzer :=
  let e := pyLower email
  if (lookupA a.profiles e).isSome then
    { a with profiles := updA a.profiles e f }
  else { a with profiles := a.profiles ++ [(e, f { address := e })] }

/-- `add_email`: add an email event to the analyzer. -/
def add_email (a : TemporalAnalyzer) (event : EmailEvent) : TemporalAnalyzer :=
  let a1 := a.withProfile event.sender (fun p =>
    { p with
      hourly_distribution := bump p.hourly_distribution (hourOf event.timestamp)
      daily_distribution := bump p.daily_distribution (weekdayOf event.timestamp)
      observed_timezones := p.observed_timezones ++ [event.timezone_offset]
      total_emails := p.total_emails + 1 })
  match event.response_to with
  | some r =>
      if (lookupA a1.email_threads r).isSome then
        { a1 with email_threads := updA a1.email_threads r (· ++ [event]) }
      else { a1 with email_threads := a1.email_threads ++ [(r, [event])] }
  | none => a1

/-- The sort key `lambda e: e.timestamp` as a relation. -/
def evLe (a b : EmailEvent) : Prop := a.timestamp ≤ b.timestamp

instance : DecidableRel evLe := fun a b => Int.decLe a.timestamp b.timestamp

instance : IsTotal EmailEvent evLe := ⟨fun a b => Int.le_total a.timestamp b.timestamp⟩

instance : IsTrans EmailEvent evLe := ⟨fun _ _ _ h h' => le_trans h h'⟩

/-- `events.sort(key=lambda e: e.timestamp)`: a stable sort by timestamp. -/
def sortEvents (l : List EmailEvent) : List EmailEvent :=
  l.insertionSort evLe

/-- The consecutive `(responder, response-time-in-minutes)` pairs of a
sorted thread (`for i in range(1, len(events))`). -/
noncomputable def threadDeltas (events : List EmailEvent) : List (String × ℝ) :=
  (events.zip events.tail).map (fun ab =>
    (ab.2.sender, ((ab.2.timestamp - ab.1.timestamp : ℤ) : ℝ) / 60))

/-- All `(responder, delta)` pairs produced by `calculate_response_times`,
in thread-insertion order; threads with fewer than two events are skipped
before sorting. -/
noncomputable def allDeltas (threads : List (String × List EmailEvent)) :
    List (String × ℝ) :=
  threads.flatMap (fun te =>
    if te.2.length < 2 then [] else threadDeltas (sortEvents te.2))

/-- One guarded append of `calculate_response_times`:
`if response_time > 0 and response_time < 10080: profile.response_times.append(...)`. -/
noncomputable def appendRT (a : TemporalAnalyzer) (d : String × ℝ) :
    TemporalAnalyzer :=
  if 0 < d.2 ∧ d.2 < 10080 then
    a.withProfile d.1 (fun p =>
      { p with response_times := p.response_times ++ [d.2] })
  else a

/-- The in-place `events.sort(...)` of `calculate_response_times` as seen
in the stored thread map (threads shorter than two events are skipped). -/
def sortThreadEntry (e : String × List EmailEvent) : String × List EmailEvent :=
  (e.1, if e.2.length < 2 then e.2 else sortEvents e.2)

/-- `calculate_response_times`: derive response-time samples from thread
data and append them to the responders' profiles. -/
noncomputable def calculate_response_times (a : TemporalAnalyzer) :
    TemporalAnalyzer :=
  let a1 := (allDeltas a.email_threads).foldl appendRT a
  { a1 with email_threads := a1.email_threads.map sortThreadEntry }

/-- The per-profile statistics pass of `finalize_profiles`. -/
noncomputable def finalizeProfile (p : TemporalProfile) : TemporalProfile :=
  let p1 :=
    if p.response_times.isEmpty then p
    else
      let p' := { p with avg_response_time := listMean p.response_times }
      if 1 < p.response_times.length then
        { p' with std_response_time := listStdev p.response_times }
      else p'
  let p2 :=
    if p1.observed_timezones.isEmpty then p1
    else { p1 with primary_timezone := listMode p1.observed_timezones }
  if 0 < p2.total_emails then
    let active := p2.hourly_distribution.filterMap (fun hc =>
      if (p2.total_emails : ℝ) * 0.05 ≤ (hc.2 : ℝ) then some hc.1 else none)
    { p2 with active_hours := active }
  else p2

/-- `finalize_profiles`: calculate statistics for all profiles. -/
noncomputable def finalize_profiles (a : TemporalAnalyzer) : TemporalAnalyzer :=
  let a1 := a.calculate_response_times
  { a1 with profiles := a1.profiles.map (fun kp => (kp.1, finalizeProfile kp.2)) }

/-- `get_hourly_probability`. -/
noncomputable def get_hourly_probability (p : TemporalProfile) (hour : ℤ) : ℝ :=
  if p.total_emails = 0 then 1 / 24
  else ((lookupA p.hourly_distribution hour).getD 0 : ℕ) / (p.total_emails : ℝ)

/-- `get_daily_probability`. -/
noncomputable def get_daily_probability (p : TemporalProfile) (day : ℤ) : ℝ :=
  if p.total_emails = 0 then 1 / 7
  else ((lookupA p.daily_distribution day).getD 0 : ℕ) / (p.total_emails : ℝ)

/-- `_risk_level` of the temporal analyzer. -/
noncomputable def taRiskLevel (score : ℝ) : String :=
  if 0.6 ≤ score then "HIGH" else if 0.3 ≤ score then "MEDIUM" else "LOW"

/-- The analysis report dictionary of `TemporalAnalyzer.analyze_email`;
keys absent from the no-baseline dictionary are `none`. -/
structure TemporalReport where
  sender : String
  timestamp : ℤ
  anomaly_score : ℝ
  anomalies : List String
  has_baseline : Bool
  hour_probability : Option ℝ := none
  day_probability : Option ℝ := none
  primary_timezone : Option ℤ := none
  active_hours : Option (List ℤ) := none
  total_baseline_emails : Option ℕ := none
  risk_level : Option String := none

/-- Check 2 of `analyze_email`: unusual hour (plus dead zone). -/
noncomputable def hourCheck (p : TemporalProfile) (hour : ℤ) (hour_prob : ℝ) :
    ℝ × List String :=
  if hour_prob < 0.02 then
    if hour ∈ p.active_hours then (0.3, ["UNUSUAL_HOUR"])
    else (0.3 + 0.2, ["UNUSUAL_HOUR", "DEAD_ZONE"])
  else (0, [])

/-- Check 3 of `analyze_email`: unusual day. -/
noncomputable def dayCheck (day_prob : ℝ) : ℝ × List String :=
  if day_prob < 0.05 then (0.15, ["UNUSUAL_DAY"]) else (0, [])

/-- Check 4 of `analyze_email`: timezone mismatch. Note the guard: the
check runs only when both the event's offset and the profile's primary
timezone are nonzero. -/
noncomputable def tzCheck (p : TemporalProfile) (event : EmailEvent) :
    ℝ × List String :=
  if event.timezone_offset ≠ 0 ∧ p.primary_timezone ≠ 0 then
    let tz_diff := |event.timezone_offset - p.primary_timezone|
    if 60 < tz_diff then
      if 300 < tz_diff then
        (0.25 + 0.2, ["TIMEZONE_MISMATCH", "MAJOR_TZ_SHIFT"])
      else (0.25, ["TIMEZONE_MISMATCH"])
    else (0, [])
  else (0, [])

/-- Check 5 of `analyze_email`: the 3 AM test on the profile-local hour. -/
noncomputable def lateCheck (p : TemporalProfile) (hour : ℤ) (hour_prob : ℝ) :
    ℝ × List String :=
  let local_hour := pyMod (hour + pyDiv p.primary_timezone 60) 24
  if 1 ≤ local_hour ∧ local_hour ≤ 5 then
    if hour_prob < 0.05 then (0.2, ["LATE_NIGHT"]) else (0, [])
  else (0, [])

/-- The neutral no-baseline report of `analyze_email`. -/
noncomputable def noBaselineReport (event : EmailEvent) : TemporalReport :=
  { sender := event.sender
    timestamp := event.timestamp
    anomaly_score := 0.5
    anomalies := ["INSUFFICIENT_HISTORY"]
    has_baseline := false }

/-- The baseline-present branch of `TemporalAnalyzer.analyze_email`: all
four anomaly checks are accumulators over independent inputs, so the
sequentially accumulated score is their sum and the anomaly list is the
concatenation of their tags, in source order. -/
noncomputable def reportOf (p : TemporalProfile) (event : EmailEvent) :
    TemporalReport :=
  let hour := hourOf event.timestamp
  let day := weekdayOf event.timestamp
  let hour_prob := get_hourly_probability p hour
  let day_prob := get_daily_probability p day
  let c2 := hourCheck p hour hour_prob
  let c3 := dayCheck day_prob
  let c4 := tzCheck p event
  let c5 := lateCheck p hour hour_prob
  let score := c2.1 + c3.1 + c4.1 + c5.1
  { sender := event.sender
    timestamp := event.timestamp
    anomaly_score := min 1.0 score
    anomalies := c2.2 ++ c3.2 ++ c4.2 ++ c5.2
    has_baseline := true
    hour_probability := some hour_prob
    day_probability := some day_prob
    primary_timezone := some p.primary_timezone
    active_hours := some p.active_hours
    total_baseline_emails := some p.total_emails
    risk_level := some (taRiskLevel score) }

/-- `TemporalAnalyzer.analyze_email`: analyze an email for temporal
anomalies. The reported `anomaly_score` is clamped with `min 1.0` but the
reported `risk_level` is computed from the unclamped accumulator, exactly
as in the source. -/
noncomputable def analyze_email (a : TemporalAnalyzer) (event : EmailEvent) :
    TemporalReport :=
  match lookupA a.profiles (pyLower event.sender) with
  | none => noBaselineReport event
  | some p =>
    if p.total_emails < 20 then noBaselineReport event
    else reportOf p event

end TemporalAnalyzer

/-! ## StylometryEngine (`src/stylometry_engine.py`) -/

/-- ASCII approximation of the regex word character class `\w`. -/
def wordChar (c : Char) : Bool := c.isAlphanum || c == '_'

/-- A lowercase ASCII letter (the regex class `[a-z]`). -/
def lowerAlpha (c : Char) : Bool := 'a' ≤ c && c ≤ 'z'

/-- `dropWhile` never lengthens a list. -/
theorem dropWhile_length_le {α : Type} (p : α → Bool) (l : List α) :
    (l.dropWhile p).length ≤ l.length := by
  induction l with
  | nil => simp [List.dropWhile]
  | cons c cs ih =>
      by_cases h : p c
      · simpa [List.dropWhile, h] using Nat.le_succ_of_le ih
      · simp [List.dropWhile, h]

/-- Maximal runs of characters satisfying `p`. -/
def splitRuns (p : Char → Bool) : List Char → List (List Char)
  | [] => []
  | c :: cs =>
    if p c then (c :: cs.takeWhile p) :: splitRuns p (cs.dropWhile p)
    else splitRuns p cs
termination_by l => l.length
decreasing_by
  · exact Nat.lt_succ_of_le (dropWhile_length_le p cs)
  · exact Nat.lt_succ_self cs.length

/-- Split into pieces at characters satisfying `p` (pieces may be empty). -/
def splitPieces (p : Char → Bool) (l : List Char) : List (List Char) :=
  l.foldr (fun c acc =>
    if p c then [] :: acc
    else match acc with
      | [] => [[c]]
      | h :: t => (c :: h) :: t) [[]]

/-- First occurrences of the elements of a list, in encounter order
(the key order of a Python `Counter`/`defaultdict`). -/
def dedupFirst {α : Type} [BEq α] (l : List α) : List α :=
  l.foldl (fun acc x => if acc.contains x then acc else acc ++ [x]) []

/-- Substring test (`needle in hay` on Python strings). -/
def hasSub (hay needle : List Char) : Bool :=
  hay.tails.any (fun t => needle.isPrefixOf t)

/-- Non-overlapping substring occurrence count (`str.count`). -/
def countOcc : List Char → List Char → ℕ
  | _, [] => 0
  | [], _ :: _ => 0
  | nd :: nds, h :: hs =>
    if (nd :: nds).isPrefixOf (h :: hs) then
      1 + countOcc (nd :: nds) ((h :: hs).drop (nd :: nds).length)
    else countOcc (nd :: nds) hs
termination_by _ hay => hay.length
decreasing_by
  · simp only [List.length_drop, List.length_cons]
    omega
  · simp only [List.length_cons]
    omega

/-- The matcher automaton for the contraction regex on a lowercased text:
it counts the non-overlapping matches that a left-to-right scan for a
word-character run, an apostrophe and a second word-character run finds,
with word boundaries at both ends. States: 0 = at a boundary, 1 = inside
the first word run, 2 = just after the apostrophe, 3 = inside the second
(counted) word run. -/
def contrAux : ℕ → List Char → ℕ
  | _, [] => 0
  | st, c :: cs =>
    if wordChar c then
      match st with
      | 0 => contrAux 1 cs
      | 1 => contrAux 1 cs
      | 2 => 1 + contrAux 3 cs
      | _ => contrAux 3 cs
    else if c == '\x27' then
      match st with
      | 1 => contrAux 2 cs
      | _ => contrAux 0 cs
    else contrAux 0 cs

/-- Number of apostrophe contractions in a text (the findall count). -/
def countContractions (l : List Char) : ℕ := contrAux 0 l

namespace Stylometry

/-- `FUNCTION_WORDS`: the fixed closed-class lexicon (membership only). -/
def FUNCTION_WORDS : List String :=
  ["the", "a", "an", "and", "or", "but", "if", "then", "because", "as",
   "until", "while", "of", "at", "by", "for", "with", "about", "against",
   "between", "into", "through", "during", "before", "after", "above",
   "below", "to", "from", "up", "down", "in", "out", "on", "off", "over",
   "under", "again", "further", "once", "here", "there", "when",
   "where", "why", "how", "all", "each", "few", "more", "most", "other",
   "some", "such", "no", "nor", "not", "only", "own", "same", "so", "than",
   "too", "very", "can", "will", "just", "should", "now", "i", "you", "he",
   "she", "it", "we", "they", "what", "which", "who", "this", "that", "these",
   "those", "am", "is", "are", "was", "were", "be", "been", "being", "have",
   "has", "had", "having", "do", "does", "did", "doing", "would", "could",
   "might", "must", "shall", "however", "therefore", "thus",
   "hence", "also", "yet", "still", "already", "always", "never", "ever"]

/-- `HEDGE_WORDS`. -/
def HEDGE_WORDS : List String :=
  ["maybe", "perhaps", "possibly", "probably", "might", "could", "may",
   "seem", "seems", "appeared", "appears", "believe", "think", "guess",
   "suppose", "assume", "likely", "unlikely", "somewhat", "rather",
   "fairly", "quite", "sort of", "kind of", "approximately", "roughly"]

/-- `CERTAINTY_WORDS`. -/
def CERTAINTY_WORDS : List String :=
  ["definitely", "certainly", "absolutely", "always", "never", "must",
   "undoubtedly", "clearly", "obviously", "surely", "truly", "really",
   "totally", "completely", "entirely", "positively", "guaranteed",
   "without doubt", "no question", "for sure", "hundred percent"]

/-- `URGENCY_WORDS` (substring phrases). -/
def URGENCY_WORDS : List String :=
  ["urgent", "asap", "immediately", "right now", "right away", "quickly",
   "hurry", "rush", "fast", "time-sensitive", "deadline", "critical",
   "important", "priority", "emergency", "today", "now", "instant",
   "before end of day", "eod", "cob", "by close of business"]

/-- `tokenize`: lowercase and extract the alphabetic words
(`re.findall` of lowercase-letter runs delimited by word boundaries,
so a letter run adjacent to a digit or underscore is not a token). -/
def tokenize (text : String) : List String :=
  ((splitRuns wordChar (pyLower text).data).filter
    (fun r => r.all lowerAlpha)).map (fun r => String.mk r)

/-- `get_sentences`: split on `[.!?]+` runs, strip, drop empties. -/
def get_sentences (text : String) : List String :=
  ((splitPieces (fun c => c == '.' || c == '!' || c == '?') text.toList).map
    (fun cs => pyTrim (String.mk cs))).filter (fun s => s ≠ "")

/-- The mojibake em dash sequence counted by `extract_features`. -/
def emdash : List Char := ['â', '€', '”']

/-- The style feature dictionary of one text (`extract_features`). -/
structure Features where
  avg_word_length : ℝ
  vocabulary_richness : ℝ
  function_words : List (String × ℝ)
  avg_sentence_length : ℝ
  sentence_length_std : ℝ
  comma_rate : ℝ
  semicolon_rate : ℝ
  exclamation_rate : ℝ
  question_rate : ℝ
  dash_rate : ℝ
  contraction_rate : ℝ
  first_person_rate : ℝ
  formality_score : ℝ
  hedge_count : ℕ
  certainty_count : ℕ
  urgency_count : ℕ

/-- `extract_features`: extract style features from a single text;
`none` is the empty dictionary returned when the text has no words. -/
noncomputable def extract_features (text : String) : Option Features :=
  let words := tokenize text
  let sentences := get_sentences text
  if words.isEmpty then none
  else
    let wc : ℝ := (words.length : ℝ)
    let fw := words.filter (FUNCTION_WORDS.contains ·)
    let sls := sentences.map (fun s => ((tokenize s).length : ℝ))
    let avg_sent : ℝ := if sentences.isEmpty then wc else listMean sls
    let std_sent : ℝ :=
      if sentences.isEmpty then 0
      else if 1 < sls.length then listStdev sls else 0
    let excl : ℝ := (text.toList.count '!' : ℝ) / wc * 100
    let contr : ℝ := (countContractions (pyLower text).data : ℝ) / wc * 100
    let formality : ℝ :=
      0.5 + (if 2 < contr then -0.2 else 0) + (if 1 < excl then -0.1 else 0) +
        (if 20 < avg_sent then 0.2 else 0)
    some
      { avg_word_length := ((words.map String.length).sum : ℝ) / wc
        vocabulary_richness := ((dedupFirst words).length : ℝ) / wc
        function_words := (dedupFirst fw).map (fun w => (w, (fw.count w : ℝ) / wc))
        avg_sentence_length := avg_sent
        sentence_length_std := std_sent
        comma_rate := (text.toList.count ',' : ℝ) / wc * 100
        semicolon_rate := (text.toList.count ';' : ℝ) / wc * 100
        exclamation_rate := excl
        question_rate := (text.toList.count '?' : ℝ) / wc * 100
        dash_rate := ((text.toList.count '-' + countOcc emdash text.toList : ℕ) : ℝ) / wc * 100
        contraction_rate := contr
        first_person_rate :=
          ((words.filter (["i", "me", "my", "mine", "myself"].contains ·)).length : ℝ) / wc * 100
        formality_score := max 0 (min 1 formality)
        hedge_count := (words.filter (HEDGE_WORDS.contains ·)).length
        certainty_count := (words.filter (CERTAINTY_WORDS.contains ·)).length
        urgency_count := (URGENCY_WORDS.filter
          (fun ph => hasSub (pyLower text).data ph.toList)).length }

end Stylometry

/-- `StyleProfile`: writing style fingerprint for an author. -/
structure StyleProfile where
  author : String
  avg_word_length : ℝ := 0.0
  vocabulary_richness : ℝ := 0.0
  function_word_freq : List (String × ℝ) := []
  avg_sentence_length : ℝ := 0.0
  sentence_length_std : ℝ := 0.0
  comma_rate : ℝ := 0.0
  semicolon_rate : ℝ := 0.0
  exclamation_rate : ℝ := 0.0
  question_rate : ℝ := 0.0
  dash_rate : ℝ := 0.0
  avg_paragraph_length : ℝ := 0.0
  uses_greeting : Bool := true
  common_greetings : List String := []
  common_closings : List String := []
  contraction_rate : ℝ := 0.0
  first_person_rate : ℝ := 0.0
  formality_score : ℝ := 0.5
  sample_count : ℕ := 0
  total_words : ℕ := 0

/-- `StylometryEngine`. -/
structure StylometryEngine where
  profiles : List (String × StyleProfile) := []
  sample_texts : List (String × List String) := []

/-- Set a key in an insertion-ordered association list
(`d[k] = v`: update in place, or append on first assignment). -/
def setA {K V : Type} [BEq K] (l : List (K × V)) (k : K) (v : V) :
    List (K × V) :=
  if (lookupA l k).isSome then updA l k (fun _ => v) else l ++ [(k, v)]

namespace StylometryEngine

open Stylometry

/-- `add_sample`: add a text sample for an author. -/
def add_sample (eng : StylometryEngine) (author text : String) :
    StylometryEngine :=
  let a := pyLower author
  let old := (lookupA eng.sample_texts a).getD []
  { eng with sample_texts := setA eng.sample_texts a (old ++ [text]) }

/-- The profile value `build_profile` computes (`None` when the author
has fewer than 10 samples or no nonempty feature dictionaries). -/
noncomputable def buildProfileVal (eng : StylometryEngine) (author : String) :
    Option StyleProfile :=
  let samples := (lookupA eng.sample_texts author).getD []
  if samples.length < 10 then none
  else
    let all_features := samples.filterMap extract_features
    if all_features.isEmpty then none
    else
      let fwKeys := dedupFirst (all_features.flatMap
        (fun f => f.function_words.map (·.1)))
      some
        { author := author
          sample_count := all_features.length
          avg_word_length := listMean (all_features.map (·.avg_word_length))
          vocabulary_richness := listMean (all_features.map (·.vocabulary_richness))
          avg_sentence_length := listMean (all_features.map (·.avg_sentence_length))
          sentence_length_std := listMean (all_features.map (·.sentence_length_std))
          comma_rate := listMean (all_features.map (·.comma_rate))
          semicolon_rate := listMean (all_features.map (·.semicolon_rate))
          exclamation_rate := listMean (all_features.map (·.exclamation_rate))
          question_rate := listMean (all_features.map (·.question_rate))
          dash_rate := listMean (all_features.map (·.dash_rate))
          contraction_rate := listMean (all_features.map (·.contraction_rate))
          first_person_rate := listMean (all_features.map (·.first_person_rate))
          formality_score := listMean (all_features.map (·.formality_score))
          function_word_freq := fwKeys.map (fun w =>
            (w, listMean (all_features.filterMap
              (fun f => lookupA f.function_words w))))
          total_words := (samples.map (fun t => (tokenize t).length)).sum }

/-- `build_profile` as a state transformer: stores the profile when one
is built, and leaves the engine unchanged when `None` is returned. -/
noncomputable def build_profile (eng : StylometryEngine) (author : String) :
    StylometryEngine :=
  match buildProfileVal eng (pyLower author) with
  | none => eng
  | some p => { eng with profiles := setA eng.profiles (pyLower author) p }

/-- `_risk_level` of the stylometry engine. -/
noncomputable def sRiskLevel (deviation : ℝ) : String :=
  if 0.5 ≤ deviation then "HIGH"
  else if 0.3 ≤ deviation then "MEDIUM" else "LOW"

/-- The comparison report of `compare_to_profile`; keys absent from a
given return dictionary are `none`. -/
structure StyloReport where
  author : String
  has_profile : Bool
  similarity : ℝ
  message : Option String := none
  deviation_score : Option ℝ := none
  deviations : Option (List String) := none
  risk_level : Option String := none
  features_analyzed : Option ℕ := none

/-- One numeric-feature comparison of `compare_to_profile`. -/
noncomputable def numComp (expected actual threshold : ℝ) (tag : String) :
    ℝ × List String :=
  if threshold < |expected - actual| then
    (min (|expected - actual| / (threshold * 2)) 0.3, [tag])
  else (0, [])

/-- `compare_to_profile(text, author)`: compare a text to an author's
profile. `features_analyzed` is the fixed key count of a nonempty feature
dictionary. -/
noncomputable def compare_to_profile (eng : StylometryEngine)
    (text author : String) : StyloReport :=
  let a := pyLower author
  match lookupA eng.profiles a with
  | none =>
      { author := a
        has_profile := false
        similarity := 0.5
        message := some "No style profile available" }
  | some profile =>
    match extract_features text with
    | none =>
        { author := a
          has_profile := true
          similarity := 0.5
          message := some "Text too short to analyze" }
    | some features =>
      let c1 := numComp profile.avg_word_length features.avg_word_length 0.5
        "WORD LENGTH"
      let c2 := numComp profile.avg_sentence_length features.avg_sentence_length
        3.0 "SENTENCE LENGTH"
      let c3 := numComp profile.comma_rate features.comma_rate 1.0 "COMMA USAGE"
      let c4 := numComp profile.exclamation_rate features.exclamation_rate 0.5
        "EXCLAMATION USAGE"
      let c5 := numComp profile.contraction_rate features.contraction_rate 1.0
        "CONTRACTION USAGE"
      let c6 := numComp profile.formality_score features.formality_score 0.2
        "FORMALITY LEVEL"
      let cf : ℝ × List String :=
        if profile.function_word_freq.isEmpty || features.function_words.isEmpty
        then (0, [])
        else
          let func_dev := (profile.function_word_freq.map (fun wf =>
            |wf.2 - ((lookupA features.function_words wf.1).getD 0)|)).sum
          let compared := profile.function_word_freq.length
          if 0 < compared then
            let avg_dev := func_dev / (compared : ℝ)
            if 0.01 < avg_dev then (min (avg_dev * 10) 0.3, ["FUNCTION_WORDS"])
            else (0, [])
          else (0, [])
      let cu : ℝ × List String :=
        if 2 < features.urgency_count then (0.2, ["URGENCY_SPIKE"]) else (0, [])
      let ch : ℝ × List String :=
        if 3 < features.hedge_count then (0.1, ["HEDGING"]) else (0, [])
      let dev := c1.1 + c2.1 + c3.1 + c4.1 + c5.1 + c6.1 + cf.1 + cu.1 + ch.1
      { author := a
        has_profile := true
        similarity := max 0 (1 - dev)
        deviation_score := some dev
        deviations := some (c1.2 ++ c2.2 ++ c3.2 ++ c4.2 ++ c5.2 ++ c6.2 ++
          cf.2 ++ cu.2 ++ ch.2)
        risk_level := some (sRiskLevel dev)
        features_analyzed := some 16 }

end StylometryEngine

/-! ## BECScorer (`src/bec_scorer.py`) -/

/-- `EmailToAnalyze`: an incoming email to analyze for BEC indicators. -/
structure EmailToAnalyze where
  from_addr : String
  to_addr : String
  subject : String
  body : String
  timestamp : ℤ
  timezone_offset : ℤ := 0
  has_payment_request : Bool := false
  amount_requested : ℝ := 0.0
  message_id : String := ""
  in_reply_to : String := ""

/-- The trust-component findings dictionary of `BECScorer.analyze_email`:
either the full payment analysis, or the basic non-payment check. -/
inductive TrustFindings where
  | payment (p : TrustGraph.PaymentAnalysis)
  | basic (trust_score relationship_strength risk_score : ℝ)
      (risk_factors : List String)

/-- `trust_result.get("risk_score", 0)`. -/
noncomputable def TrustFindings.riskScore : TrustFindings → ℝ
  | .payment p => p.risk_score
  | .basic _ _ r _ => r

/-- `trust_result.get("risk_factors", [])`. -/
noncomputable def TrustFindings.factors : TrustFindings → List String
  | .payment p => p.risk_factors
  | .basic _ _ _ f => f

/-- `BECAnalysisResult`: complete BEC analysis result. -/
structure BECAnalysisResult where
  overall_risk_score : ℝ
  risk_level : String
  recommendation : String
  trust_score : ℝ
  temporal_score : ℝ
  stylometry_score : ℝ
  trust_findings : TrustFindings
  temporal_findings : TemporalAnalyzer.TemporalReport
  stylometry_findings : StylometryEngine.StyloReport
  all_risk_factors : List String

/-- `BECScorer`: multi-signal BEC detection engine. -/
structure BECScorer where
  trust_graph : TrustGraph
  temporal_analyzer : TemporalAnalyzer
  stylometry_engine : StylometryEngine
  is_trained : Bool

namespace BECScorer

/-- `BECScorer(organization_domain)`. -/
def init (organization_domain : String) : BECScorer :=
  { trust_graph := TrustGraph.init organization_domain
    temporal_analyzer := {}
    stylometry_engine := {}
    is_trained := false }

/-- The fixed weight configuration set in `__init__` and never mutated:
`{'trust': 0.35, 'temporal': 0.30, 'stylometry': 0.25, 'payment': 0.10}`. -/
noncomputable def wTrust : ℝ := 0.35

/-- The temporal fusion weight. -/
noncomputable def wTemporal : ℝ := 0.30

/-- The stylometry fusion weight. -/
noncomputable def wStylometry : ℝ := 0.25

/-- The payment fusion weight. -/
noncomputable def wPayment : ℝ := 0.10

/-- `BECScorer.add_executive`. -/
def add_executive (s : BECScorer) (email : String) : BECScorer :=
  { s with trust_graph := s.trust_graph.add_executive email }

/-- `train_on_email`: add a historical email to training data. -/
def train_on_email (s : BECScorer) (email : EmailToAnalyze) : BECScorer :=
  let g := s.trust_graph.add_interaction
    { from_addr := email.from_addr
      to_addr := email.to_addr
      timestamp := email.timestamp
      subject := email.subject
      has_payment_request := email.has_payment_request
      amount_requested := email.amount_requested }
  let t := s.temporal_analyzer.add_email
    { sender := email.from_addr
      recipient := email.to_addr
      timestamp := email.timestamp
      timezone_offset := email.timezone_offset
      message_id := email.message_id
      response_to := if email.in_reply_to ≠ "" then some email.in_reply_to
        else none }
  let st := if 100 < email.body.length then
    s.stylometry_engine.add_sample email.from_addr email.body
    else s.stylometry_engine
  { s with trust_graph := g, temporal_analyzer := t, stylometry_engine := st }

/-- `finalize_training`: propagate trust, compute temporal statistics,
build stylometry profiles for every author with accumulated samples, and
transition to the trained state. `propagate_trust` reads the wall clock
through `calculate_relationship_strength`, hence the `now` argument. -/
noncomputable def finalize_training (s : BECScorer) (now : ℤ) : BECScorer :=
  { trust_graph := s.trust_graph.propagate_trust 10 0.85 now
    temporal_analyzer := s.temporal_analyzer.finalize_profiles
    stylometry_engine := s.stylometry_engine.sample_texts.foldl
      (fun e kt => e.build_profile kt.1) s.stylometry_engine
    is_trained := true }

/-- The urgency keywords of the payment heuristic. -/
def urgency_keywords : List String :=
  ["urgent", "asap", "immediately", "rush", "today", "now"]

/-- The secrecy keywords of the payment heuristic. -/
def secrecy_keywords : List String :=
  ["confidential", "secret", "dont tell", "don\x27t tell",
   "between us", "private", "discreet"]

/-- The number of urgency keywords occurring in the lowercased
subject-plus-body text. -/
def urgencyCount (email : EmailToAnalyze) : ℕ :=
  let text_lower := pyLower (email.subject ++ " " ++ email.body)
  (urgency_keywords.filter (fun kw => hasSub text_lower.data kw.toList)).length

/-- Whether any secrecy keyword occurs in the lowercased
subject-plus-body text. -/
def secrecyHit (email : EmailToAnalyze) : Bool :=
  let text_lower := pyLower (email.subject ++ " " ++ email.body)
  secrecy_keywords.any (fun kw => hasSub text_lower.data kw.toList)

/-- Component 4 of `analyze_email`: the payment-request risk accumulator
(0.0 when no payment is requested). -/
noncomputable def paymentRisk (email : EmailToAnalyze) : ℝ :=
  if email.has_payment_request then
    0.2 +
    (if 50000 < email.amount_requested then 0.3
     else if 10000 < email.amount_requested then 0.1 else 0) +
    (if 2 ≤ urgencyCount email then 0.2 else 0) +
    (if secrecyHit email then 0.2 else 0)
  else 0.0

/-- The risk-factor tags appended while computing the payment risk. -/
noncomputable def paymentFactors (email : EmailToAnalyze) : List String :=
  if email.has_payment_request then
    (if 50000 < email.amount_requested then ["HIGH_VALUE"] else []) ++
    (if 2 ≤ urgencyCount email then ["URGENCY_PRESSURE"] else []) ++
    (if secrecyHit email then ["SECRECY_REQUEST"] else [])
  else []

/-- Component 1 of `analyze_email`: the trust findings dictionary. -/
noncomputable def trustComponent (s : BECScorer) (now : ℤ)
    (email : EmailToAnalyze) : TrustFindings :=
  if email.has_payment_request then
    .payment (s.trust_graph.analyze_payment_request now email.from_addr
      email.to_addr email.amount_requested)
  else
    let trust_score := s.trust_graph.get_trust_score email.from_addr
    let relationship := s.trust_graph.calculate_relationship_strength now
      email.from_addr email.to_addr
    .basic trust_score relationship
      (if 0.5 < trust_score then 0.0 else 0.5 - trust_score)
      ((if trust_score < 0.3 then ["LOW_TRUST"] else []) ++
       (if relationship < 0.2 then ["WEAK_RELATIONSHIP"] else []))

/-- The risk level and recommendation chain at the end of
`analyze_email` (thresholds 0.7 / 0.5 / 0.3 on the clamped score). -/
noncomputable def fusionLevel (overall_risk : ℝ) : String × String :=
  if 0.7 ≤ overall_risk then
    ("CRITICAL", "BLOCK: Do not proceed. Verify through phone call to known number.")
  else if 0.5 ≤ overall_risk then
    ("HIGH", "HOLD: Requires manager approval and verbal confirmation.")
  else if 0.3 ≤ overall_risk then
    ("MEDIUM", "REVIEW: Examine request carefully. Consider verification.")
  else ("LOW", "PROCEED: Normal risk level.")

/-- The body of `analyze_email` past the trained-state guard. -/
noncomputable def analyzeCore (s : BECScorer) (now : ℤ)
    (email : EmailToAnalyze) : BECAnalysisResult :=
  let trust_result := s.trustComponent now email
  let trust_risk := trust_result.riskScore
  let temporal_result := s.temporal_analyzer.analyze_email
    { sender := email.from_addr
      recipient := email.to_addr
      timestamp := email.timestamp
      timezone_offset := email.timezone_offset
      message_id := email.message_id }
  let temporal_risk := temporal_result.anomaly_score
  let stylometry_result := s.stylometry_engine.compare_to_profile email.body
    email.from_addr
  let stylometry_risk := 1 - stylometry_result.similarity
  let payment_risk := paymentRisk email
  let overall0 := wTrust * trust_risk + wTemporal * temporal_risk +
    wStylometry * stylometry_risk + wPayment * payment_risk
  let overall_risk := max 0 (min 1 overall0)
  { overall_risk_score := overall_risk
    risk_level := (fusionLevel overall_risk).1
    recommendation := (fusionLevel overall_risk).2
    trust_score := trust_risk
    temporal_score := temporal_risk
    stylometry_score := stylometry_risk
    trust_findings := trust_result
    temporal_findings := temporal_result
    stylometry_findings := stylometry_result
    all_risk_factors := trust_result.factors ++ temporal_result.anomalies ++
      (stylometry_result.deviations.getD []) ++ paymentFactors email }

/-- `BECScorer.analyze_email`: raises a `RuntimeError` state error before
training is finalized, and otherwise returns the analysis result. -/
noncomputable def analyze_email (s : BECScorer) (now : ℤ)
    (email : EmailToAnalyze) : Except String BECAnalysisResult :=
  if ¬ s.is_trained then
    .error "Must call finalize_training() before analysis"
  else .ok (s.analyzeCore now email)

end BECScorer

/-! ## Helper lemmas -/

theorem foldl_min_assoc (m : List ℤ) : ∀ (X b : ℤ),
    m.foldl min (min X b) = min X (m.foldl min b) := by
  induction m with
  | nil => intro X b; rfl
  | cons c m' ih =>
      intro X b
      simp only [List.foldl_cons]
      rw [min_assoc, ih]

theorem foldl_max_assoc (m : List ℤ) : ∀ (X b : ℤ),
    m.foldl max (max X b) = max X (m.foldl max b) := by
  induction m with
  | nil => intro X b; rfl
  | cons c m' ih =>
      intro X b
      simp only [List.foldl_cons]
      rw [max_assoc, ih]

theorem pyMin_append (l m : List ℤ) (hl : l ≠ []) (hm : m ≠ []) :
    pyMin (l ++ m) = min (pyMin l) (pyMin m) := by
  match l, m with
  | a :: l', b :: m' =>
    simp only [pyMin, List.cons_append, List.foldl_append, List.foldl_cons]
    rw [foldl_min_assoc]

theorem pyMax_append (l m : List ℤ) (hl : l ≠ []) (hm : m ≠ []) :
    pyMax (l ++ m) = max (pyMax l) (pyMax m) := by
  match l, m with
  | a :: l', b :: m' =>
    simp only [pyMax, List.cons_append, List.foldl_append, List.foldl_cons]
    rw [foldl_max_assoc]

theorem pyMin_append_comm (l m : List ℤ) : pyMin (l ++ m) = pyMin (m ++ l) := by
  rcases eq_or_ne l [] with rfl | hl
  · simp
  rcases eq_or_ne m [] with rfl | hm
  · simp
  rw [pyMin_append l m hl hm, pyMin_append m l hm hl, min_comm]

theorem pyMax_append_comm (l m : List ℤ) : pyMax (l ++ m) = pyMax (m ++ l) := by
  rcases eq_or_ne l [] with rfl | hl
  · simp
  rcases eq_or_ne m [] with rfl | hm
  · simp
  rw [pyMax_append l m hl hm, pyMax_append m l hm hl, max_comm]

theorem strengthOf_comm (now : ℤ) (o i : List EmailInteraction) :
    TrustGraph.strengthOf now o i = TrustGraph.strengthOf now i o := by
  unfold TrustGraph.strengthOf
  rw [Bool.and_comm]
  rcases hoi : (i.isEmpty && o.isEmpty) with _ | _
  · rw [if_neg Bool.false_ne_true, if_neg Bool.false_ne_true]
    dsimp only
    rw [Nat.add_comm o.length i.length, Nat.min_comm o.length i.length,
      Nat.max_comm o.length i.length, List.map_append, List.map_append,
      pyMin_append_comm (o.map (·.timestamp)), pyMax_append_comm (o.map (·.timestamp))]
  · rw [if_pos rfl, if_pos rfl]

/-- Claim C6: `calculate_relationship_strength(a, b)` equals
`calculate_relationship_strength(b, a)` for every pair of addresses and
every graph, when both are evaluated at the same reference time, because
the strength is computed over the union of the edges a-to-b and b-to-a. -/
theorem claim_C6_relationship_strength_symmetric
    (g : TrustGraph) (now : ℤ) (a b : String) :
    g.calculate_relationship_strength now a b =
      g.calculate_relationship_strength now b a := by
  unfold TrustGraph.calculate_relationship_strength
  exact strengthOf_comm now _ _

/-! ## Bounds on relationship strength and trust propagation (C5, C2) -/

theorem strengthOf_nonneg (now : ℤ) (o i : List EmailInteraction) :
    0 ≤ TrustGraph.strengthOf now o i := by
  unfold TrustGraph.strengthOf
  split
  · norm_num
  · dsimp only
    refine le_min (by norm_num) ?_
    have h1 : 0 ≤ Real.log (1 + ((o.length + i.length : ℕ) : ℝ)) * 0.3 := by
      refine mul_nonneg (Real.log_nonneg ?_) (by norm_num)
      have : (0 : ℝ) ≤ ((o.length + i.length : ℕ) : ℝ) := Nat.cast_nonneg _
      linarith
    have h2 : (0 : ℝ) ≤
        ((min o.length i.length : ℕ) : ℝ) / ((max (max o.length i.length) 1 : ℕ) : ℝ) := by
      positivity
    have h3 : (0 : ℝ) ≤
        min (((max 1 (pyDiv (pyMax ((o ++ i).map (·.timestamp)) -
          pyMin ((o ++ i).map (·.timestamp))) 86400) : ℤ) : ℝ) / 365) 1 := by
      refine le_min ?_ (by norm_num)
      have : (0 : ℤ) ≤ max 1 (pyDiv (pyMax ((o ++ i).map (·.timestamp)) -
          pyMin ((o ++ i).map (·.timestamp))) 86400) :=
        le_trans (by norm_num) (le_max_left _ _)
      have h0 : (0 : ℝ) ≤ ((max 1 (pyDiv (pyMax ((o ++ i).map (·.timestamp)) -
          pyMin ((o ++ i).map (·.timestamp))) 86400) : ℤ) : ℝ) := by
        exact_mod_cast this
      positivity
    have h4 : (0 : ℝ) ≤ Real.exp (-((pyDiv (now - pyMax ((o ++ i).map (·.timestamp))) 86400 : ℤ) : ℝ) / 90) * 0.2 :=
      mul_nonneg (Real.exp_nonneg _) (by norm_num)
    nlinarith [h2, h3]

theorem strengthOf_le_one (now : ℤ) (o i : List EmailInteraction) :
    TrustGraph.strengthOf now o i ≤ 1 := by
  unfold TrustGraph.strengthOf
  split
  · norm_num
  · dsimp only
    exact le_trans (min_le_left _ _) (by norm_num)

theorem strength_bounds (g : TrustGraph) (now : ℤ) (a b : String) :
    0 ≤ g.calculate_relationship_strength now a b ∧
      g.calculate_relationship_strength now a b ≤ 1 := by
  unfold TrustGraph.calculate_relationship_strength
  exact ⟨strengthOf_nonneg _ _ _, strengthOf_le_one _ _ _⟩

/-- A successful association-list lookup returns a stored value. -/
theorem lookupA_mem {K V : Type} [BEq K] {l : List (K × V)} {k : K} {v : V}
    (h : lookupA l k = some v) : ∃ k', (k', v) ∈ l := by
  unfold lookupA at h
  rcases Option.map_eq_some'.mp h with ⟨p, hp, hv⟩
  exact ⟨p.1, by simpa [← hv] using List.mem_of_find?_eq_some hp⟩

/-- All trust scores of a graph lie in `[0, 1]`. -/
def TrustGraph.scoresIn01 (g : TrustGraph) : Prop :=
  ∀ p ∈ g.nodes, 0 ≤ p.2.trust_score ∧ p.2.trust_score ≤ 1

theorem initTrust_scoresIn01 (g : TrustGraph) : g.initTrust.scoresIn01 := by
  intro p hp
  unfold TrustGraph.initTrust at hp
  rcases List.mem_map.mp hp with ⟨q, _, rfl⟩
  unfold TrustGraph.initScore
  dsimp only
  split
  · norm_num
  · split <;> norm_num

theorem newScore_bounds (g : TrustGraph) (now : ℤ) (damping : ℝ)
    (hd0 : 0 ≤ damping) (hd1 : damping ≤ 1) (hg : g.scoresIn01)
    (addr : String) (n : NodeProfile) :
    0 ≤ TrustGraph.newScore g now damping addr n ∧
      TrustGraph.newScore g now damping addr n ≤ 1 := by
  unfold TrustGraph.newScore
  split
  · norm_num
  · dsimp only
    set contribs := (g.edges.filter (fun e => e.1.2 == addr)).filterMap (fun e =>
      (g.node? e.1.1).map (fun fn =>
        fn.trust_score * g.calculate_relationship_strength now e.1.1 addr)) with hc
    have hmem : ∀ x ∈ contribs, 0 ≤ x ∧ x ≤ 1 := by
      intro x hx
      rw [hc] at hx
      rcases List.mem_filterMap.mp hx with ⟨e, _, he⟩
      rcases Option.map_eq_some'.mp he with ⟨fn, hfn, hxv⟩
      rcases lookupA_mem hfn with ⟨k', hk'⟩
      have hb := hg _ hk'
      have hs := strength_bounds g now e.1.1 addr
      constructor
      · rw [← hxv]; exact mul_nonneg hb.1 hs.1
      · rw [← hxv]
        exact mul_le_one₀ hb.2 hs.1 hs.2
    split
    · rename_i hlen
      have hsum0 : 0 ≤ contribs.sum := List.sum_nonneg (fun x hx => (hmem x hx).1)
      have hsum1 : contribs.sum ≤ (contribs.length : ℝ) := by
        have := List.sum_le_card_nsmul contribs 1 (fun x hx => (hmem x hx).2)
        simpa [nsmul_eq_mul] using this
      have hlpos : (0 : ℝ) < (contribs.length : ℝ) := by exact_mod_cast hlen
      have havg0 : 0 ≤ contribs.sum / (contribs.length : ℝ) := div_nonneg hsum0 hlpos.le
      have havg1 : contribs.sum / (contribs.length : ℝ) ≤ 1 :=
        (div_le_one hlpos).mpr hsum1
      constructor
      · have : (0:ℝ) ≤ (1 - damping) * 0.1 := by nlinarith
        nlinarith
      · nlinarith
    · norm_num

theorem iterStep_scoresIn01 (g : TrustGraph) (now : ℤ) (damping : ℝ)
    (hd0 : 0 ≤ damping) (hd1 : damping ≤ 1) (hg : g.scoresIn01) :
    (g.iterStep now damping).scoresIn01 := by
  intro p hp
  unfold TrustGraph.iterStep at hp
  rcases List.mem_map.mp hp with ⟨q, _, rfl⟩
  exact newScore_bounds g now damping hd0 hd1 hg q.1 q.2

theorem propagateAux_scoresIn01 (now : ℤ) (damping : ℝ)
    (hd0 : 0 ≤ damping) (hd1 : damping ≤ 1) :
    ∀ (n : ℕ) (g : TrustGraph), g.scoresIn01 →
      (TrustGraph.propagateAux now damping n g).scoresIn01 := by
  intro n
  induction n with
  | zero => intro g hg; exact hg
  | succ m ih =>
      intro g hg
      exact ih _ (iterStep_scoresIn01 g now damping hd0 hd1 hg)

theorem propagate_scoresIn01 (g : TrustGraph) (iterations : ℕ) (damping : ℝ)
    (now : ℤ) (hd0 : 0 ≤ damping) (hd1 : damping ≤ 1) :
    (g.propagate_trust iterations damping now).scoresIn01 := by
  unfold TrustGraph.propagate_trust
  exact propagateAux_scoresIn01 now damping hd0 hd1 iterations _
    (initTrust_scoresIn01 g)

/-- Claim C5: after `propagate_trust` runs, every node's trust score lies
in `[0, 1]`; `get_trust_score` returns a value in `[0, 1]` for every
address, and exactly `0.0` for an address that was never observed. Stated
for any damping factor in `[0, 1]` (the default call uses 0.85). -/
theorem claim_C5_trust_scores_unit_interval (g : TrustGraph)
    (iterations : ℕ) (damping : ℝ) (now : ℤ)
    (hd0 : 0 ≤ damping) (hd1 : damping ≤ 1) :
    (∀ p ∈ (g.propagate_trust iterations damping now).nodes,
        0 ≤ p.2.trust_score ∧ p.2.trust_score ≤ 1) ∧
    (∀ addr : String,
        0 ≤ (g.propagate_trust iterations damping now).get_trust_score addr ∧
        (g.propagate_trust iterations damping now).get_trust_score addr ≤ 1) ∧
    (∀ addr : String,
        (g.propagate_trust iterations damping now).node? (pyLower addr) = none →
        (g.propagate_trust iterations damping now).get_trust_score addr = 0.0) := by
  have hmain := propagate_scoresIn01 g iterations damping now hd0 hd1
  refine ⟨hmain, ?_, ?_⟩
  · intro addr
    unfold TrustGraph.get_trust_score
    rcases hn : (g.propagate_trust iterations damping now).node? (pyLower addr) with _ | n
    · norm_num
    · rcases lookupA_mem hn with ⟨k', hk'⟩
      exact hmain _ hk'
  · intro addr hnone
    unfold TrustGraph.get_trust_score
    rw [hnone]

/-- The training history used to exercise claim C5's theorem: one
external-to-internal interaction on an `acme.com` graph. -/
def gC5 : TrustGraph :=
  (TrustGraph.init "acme.com").add_interaction
    { from_addr := "vendor@ext.com", to_addr := "ap@acme.com",
      timestamp := 0, subject := "inv" }

/-- Witness for claim C5 at a concrete graph, the default iteration count
and damping, and time 0. -/
theorem claim_C5_trust_scores_unit_interval_witness :
    ((0 : ℝ) ≤ 0.85 ∧ (0.85 : ℝ) ≤ 1) ∧
    ((∀ p ∈ (gC5.propagate_trust 10 0.85 0).nodes,
        0 ≤ p.2.trust_score ∧ p.2.trust_score ≤ 1) ∧
     (∀ addr : String,
        0 ≤ (gC5.propagate_trust 10 0.85 0).get_trust_score addr ∧
        (gC5.propagate_trust 10 0.85 0).get_trust_score addr ≤ 1) ∧
     (∀ addr : String,
        (gC5.propagate_trust 10 0.85 0).node? (pyLower addr) = none →
        (gC5.propagate_trust 10 0.85 0).get_trust_score addr = 0.0)) :=
  ⟨⟨by norm_num, by norm_num⟩,
    claim_C5_trust_scores_unit_interval gC5 10 0.85 0 (by norm_num) (by norm_num)⟩

/-! ## Claim C2: executives are not pinned during propagation -/

/-- The training history of claim C2's counterexample: an executive on an
external lookalike domain who sent one email into the organization. -/
def gC2 : TrustGraph :=
  ((TrustGraph.init "acme.com").add_executive "boss@evil.com").add_interaction
    { from_addr := "Boss@Evil.com", to_addr := "a@acme.com", timestamp := 0,
      subject := "s" }

/-- Counterexample to claim C2: after `propagate_trust` with the default
iteration count 10 and default damping 0.85, the executive-flagged
external node `boss@evil.com` has trust score 0.1, not 1.0 — the
iteration loop pins only internal nodes, so the executive initialization
to 1.0 is overwritten. -/
theorem claim_C2_counterexample :
    ((gC2.propagate_trust 10 0.85 0).node? "boss@evil.com").map
        (·.is_executive) = some true ∧
    ((gC2.propagate_trust 10 0.85 0).node? "boss@evil.com").map
        (·.is_internal) = some false ∧
    ((gC2.propagate_trust 10 0.85 0).node? "boss@evil.com").map
        (·.trust_score) = some 0.1 ∧
    (0.1 : ℝ) ≠ 1.0 := by
  refine ⟨by rfl, by rfl, by rfl, by norm_num⟩

/-- Every internal node of a graph has trust score exactly 1.0. -/
def TrustGraph.internalPinned (g : TrustGraph) : Prop :=
  ∀ p ∈ g.nodes, p.2.is_internal = true → p.2.trust_score = 1.0

theorem initTrust_internalPinned (g : TrustGraph) :
    g.initTrust.internalPinned := by
  intro p hp
  unfold TrustGraph.initTrust at hp
  rcases List.mem_map.mp hp with ⟨q, _, rfl⟩
  intro hint
  unfold TrustGraph.initScore
  dsimp only at hint ⊢
  rw [if_pos hint]

theorem iterStep_internalPinned (g : TrustGraph) (now : ℤ) (damping : ℝ) :
    (g.iterStep now damping).internalPinned := by
  intro p hp
  unfold TrustGraph.iterStep at hp
  rcases List.mem_map.mp hp with ⟨q, _, rfl⟩
  intro hint
  unfold TrustGraph.newScore
  dsimp only at hint ⊢
  rw [if_pos hint]

theorem propagateAux_internalPinned (now : ℤ) (damping : ℝ) :
    ∀ (n : ℕ) (g : TrustGraph), g.internalPinned →
      (TrustGraph.propagateAux now damping n g).internalPinned := by
  intro n
  induction n with
  | zero => intro g hg; exact hg
  | succ m ih =>
      intro g _
      exact ih _ (iterStep_internalPinned g now damping)

/-- Claim C2, amended: after `propagate_trust` (any iteration count, any
damping), every internal-domain node has trust score exactly 1.0.
Executive-flagged nodes are initialized to 1.0 but, unless they are also
internal, the iteration loop recomputes them like any other external
node, so only internal nodes are guaranteed to end at 1.0. -/
theorem claim_C2_amended_internal_pinned (g : TrustGraph) (iterations : ℕ)
    (damping : ℝ) (now : ℤ) (addr : String) (n : NodeProfile)
    (hn : (g.propagate_trust iterations damping now).node? addr = some n)
    (hint : n.is_internal = true) : n.trust_score = 1.0 := by
  have hpin : (g.propagate_trust iterations damping now).internalPinned := by
    unfold TrustGraph.propagate_trust
    exact propagateAux_internalPinned now damping iterations _
      (initTrust_internalPinned g)
  rcases lookupA_mem hn with ⟨k', hk'⟩
  exact hpin _ hk' hint

/-- Witness for the amended claim C2: the internal node `a@acme.com`
of the counterexample graph ends at trust exactly 1.0. -/
theorem claim_C2_amended_internal_pinned_witness :
    ((gC2.propagate_trust 10 0.85 0).node? "a@acme.com").map
      (·.trust_score) = some 1.0 := by
  have hint : ((gC2.propagate_trust 10 0.85 0).node? "a@acme.com").map
      (·.is_internal) = some true := by rfl
  rcases hres : (gC2.propagate_trust 10 0.85 0).node? "a@acme.com" with _ | n
  · rw [hres] at hint; simp at hint
  · rw [hres] at hint
    have h1 : n.is_internal = true := by simpa using hint
    have h2 := claim_C2_amended_internal_pinned gC2 10 0.85 0 "a@acme.com" n hres h1
    simp [h2]

/-! ## Claim C3: the trained-state gate -/

/-- Claim C3: `analyze_email` fails with the explicit not-ready state
error exactly when training has not been finalized — before
`finalize_training` it returns the `RuntimeError`, never a best-effort
verdict; once `finalize_training` has completed it always returns a
verdict and never raises the state error. -/
theorem claim_C3_state_gate (s : BECScorer) (now : ℤ) (e : EmailToAnalyze) :
    (s.is_trained = false →
      s.analyze_email now e =
        .error "Must call finalize_training() before analysis") ∧
    (s.is_trained = true →
      s.analyze_email now e = .ok (s.analyzeCore now e)) ∧
    (∀ now2 : ℤ, (s.finalize_training now2).is_trained = true) ∧
    (∀ (now2 now3 : ℤ) (e2 : EmailToAnalyze),
      (s.finalize_training now2).analyze_email now3 e2 =
        .ok ((s.finalize_training now2).analyzeCore now3 e2)) := by
  refine ⟨?_, ?_, ?_, ?_⟩
  · intro h
    simp [BECScorer.analyze_email, h]
  · intro h
    simp [BECScorer.analyze_email, h]
  · intro now2
    rfl
  · intro now2 now3 e2
    simp [BECScorer.analyze_email, BECScorer.finalize_training]

/-- The inference record used by claim C3's witness. -/
def eC3 : EmailToAnalyze :=
  { from_addr := "x@y.com", to_addr := "z@acme.com", subject := "hi",
    body := "hello", timestamp := 0 }

/-- Witness for claim C3 on a freshly constructed scorer. -/
theorem claim_C3_state_gate_witness :
    (BECScorer.init "acme.com").analyze_email 0 eC3 =
      .error "Must call finalize_training() before analysis" ∧
    ((BECScorer.init "acme.com").finalize_training 0).is_trained = true ∧
    ((BECScorer.init "acme.com").finalize_training 0).analyze_email 0 eC3 =
      .ok (((BECScorer.init "acme.com").finalize_training 0).analyzeCore 0 eC3) :=
  ⟨(claim_C3_state_gate (BECScorer.init "acme.com") 0 eC3).1 rfl,
   (claim_C3_state_gate (BECScorer.init "acme.com") 0 eC3).2.2.1 0,
   (claim_C3_state_gate (BECScorer.init "acme.com") 0 eC3).2.2.2 0 0 eC3⟩

/-! ## Claim C1: the fused verdict -/

/-- Claim C1: for every email analyzed after training is finalized, the
overall risk score is in `[0, 1]` and equals the weighted sum of the four
component risks with the fixed weights 0.35/0.30/0.25/0.10 (summing to
1.0), clamped to `[0, 1]`; the risk level and recommendation are the
deterministic monotonic step function of that score at the 0.7/0.5/0.3
thresholds (CRITICAL/BLOCK, HIGH/HOLD, MEDIUM/REVIEW, LOW/PROCEED). -/
theorem claim_C1_fusion (s : BECScorer) (now : ℤ) (e : EmailToAnalyze)
    (r : BECAnalysisResult) (h : s.analyze_email now e = .ok r) :
    (0 ≤ r.overall_risk_score ∧ r.overall_risk_score ≤ 1) ∧
    BECScorer.wTrust + BECScorer.wTemporal + BECScorer.wStylometry +
      BECScorer.wPayment = 1 ∧
    r.overall_risk_score = max 0 (min 1 (0.35 * r.trust_score +
      0.30 * r.temporal_score + 0.25 * r.stylometry_score +
      0.10 * BECScorer.paymentRisk e)) ∧
    (0.7 ≤ r.overall_risk_score → r.risk_level = "CRITICAL" ∧
      r.recommendation =
        "BLOCK: Do not proceed. Verify through phone call to known number.") ∧
    (0.5 ≤ r.overall_risk_score ∧ r.overall_risk_score < 0.7 →
      r.risk_level = "HIGH" ∧ r.recommendation =
        "HOLD: Requires manager approval and verbal confirmation.") ∧
    (0.3 ≤ r.overall_risk_score ∧ r.overall_risk_score < 0.5 →
      r.risk_level = "MEDIUM" ∧ r.recommendation =
        "REVIEW: Examine request carefully. Consider verification.") ∧
    (r.overall_risk_score < 0.3 → r.risk_level = "LOW" ∧
      r.recommendation = "PROCEED: Normal risk level.") := by
  have hr : r = s.analyzeCore now e := by
    unfold BECScorer.analyze_email at h
    by_cases ht : s.is_trained
    · rw [if_neg (by simp [ht])] at h
      exact (Except.ok.injEq _ _).mp h.symm |>.symm ▸ rfl
    · rw [if_pos (by simp [ht])] at h
      exact absurd h (by simp)
  subst hr
  have hov : (s.analyzeCore now e).overall_risk_score =
      max 0 (min 1 (0.35 * (s.analyzeCore now e).trust_score +
        0.30 * (s.analyzeCore now e).temporal_score +
        0.25 * (s.analyzeCore now e).stylometry_score +
        0.10 * BECScorer.paymentRisk e)) := rfl
  have hlev : (s.analyzeCore now e).risk_level =
      (BECScorer.fusionLevel (s.analyzeCore now e).overall_risk_score).1 := rfl
  have hrec : (s.analyzeCore now e).recommendation =
      (BECScorer.fusionLevel (s.analyzeCore now e).overall_risk_score).2 := rfl
  set ov := (s.analyzeCore now e).overall_risk_score with hovdef
  have h0 : 0 ≤ ov := by rw [hov]; exact le_max_left _ _
  have h1 : ov ≤ 1 := by
    rw [hov]
    exact max_le (by norm_num) (le_trans (min_le_left _ _) (by norm_num))
  refine ⟨⟨h0, h1⟩, by norm_num [BECScorer.wTrust, BECScorer.wTemporal,
    BECScorer.wStylometry, BECScorer.wPayment], hov, ?_, ?_, ?_, ?_⟩
  · intro hc
    rw [hlev, hrec]
    unfold BECScorer.fusionLevel
    rw [if_pos hc]
    exact ⟨rfl, rfl⟩
  · rintro ⟨hc1, hc2⟩
    rw [hlev, hrec]
    unfold BECScorer.fusionLevel
    rw [if_neg (by linarith), if_pos hc1]
    exact ⟨rfl, rfl⟩
  · rintro ⟨hc1, hc2⟩
    rw [hlev, hrec]
    unfold BECScorer.fusionLevel
    rw [if_neg (by linarith), if_neg (by linarith), if_pos hc1]
    exact ⟨rfl, rfl⟩
  · intro hc
    rw [hlev, hrec]
    unfold BECScorer.fusionLevel
    rw [if_neg (by linarith), if_neg (by linarith), if_neg (by linarith)]
    exact ⟨rfl, rfl⟩

/-- A trained scorer with an empty history, for claim C1's witness. -/
def sC1 : BECScorer :=
  { trust_graph := TrustGraph.init "acme.com"
    temporal_analyzer := {}
    stylometry_engine := {}
    is_trained := true }

/-- The inference record used by claim C1's witness. -/
def eC1 : EmailToAnalyze :=
  { from_addr := "u@v.com", to_addr := "w@acme.com", subject := "hello",
    body := "note", timestamp := 3600 }

/-- Witness for claim C1 on a concrete trained scorer and email. -/
theorem claim_C1_fusion_witness :
    (0 ≤ (sC1.analyzeCore 0 eC1).overall_risk_score ∧
      (sC1.analyzeCore 0 eC1).overall_risk_score ≤ 1) ∧
    BECScorer.wTrust + BECScorer.wTemporal + BECScorer.wStylometry +
      BECScorer.wPayment = 1 ∧
    (sC1.analyzeCore 0 eC1).overall_risk_score =
      max 0 (min 1 (0.35 * (sC1.analyzeCore 0 eC1).trust_score +
      0.30 * (sC1.analyzeCore 0 eC1).temporal_score +
      0.25 * (sC1.analyzeCore 0 eC1).stylometry_score +
      0.10 * BECScorer.paymentRisk eC1)) ∧
    (0.7 ≤ (sC1.analyzeCore 0 eC1).overall_risk_score →
      (sC1.analyzeCore 0 eC1).risk_level = "CRITICAL" ∧
      (sC1.analyzeCore 0 eC1).recommendation =
        "BLOCK: Do not proceed. Verify through phone call to known number.") ∧
    (0.5 ≤ (sC1.analyzeCore 0 eC1).overall_risk_score ∧
        (sC1.analyzeCore 0 eC1).overall_risk_score < 0.7 →
      (sC1.analyzeCore 0 eC1).risk_level = "HIGH" ∧
      (sC1.analyzeCore 0 eC1).recommendation =
        "HOLD: Requires manager approval and verbal confirmation.") ∧
    (0.3 ≤ (sC1.analyzeCore 0 eC1).overall_risk_score ∧
        (sC1.analyzeCore 0 eC1).overall_risk_score < 0.5 →
      (sC1.analyzeCore 0 eC1).risk_level = "MEDIUM" ∧
      (sC1.analyzeCore 0 eC1).recommendation =
        "REVIEW: Examine request carefully. Consider verification.") ∧
    ((sC1.analyzeCore 0 eC1).overall_risk_score < 0.3 →
      (sC1.analyzeCore 0 eC1).risk_level = "LOW" ∧
      (sC1.analyzeCore 0 eC1).recommendation = "PROCEED: Normal risk level.") :=
  claim_C1_fusion sC1 0 eC1 (sC1.analyzeCore 0 eC1) rfl

/-! ## Claim C10: the non-payment trust component -/

/-- Claim C10: for every email analyzed without a payment request, the
trust component risk used in fusion is 0.0 when the sender's trust score
exceeds 0.5 and `0.5 - trust` otherwise, hence at most 0.5; an entirely
unknown sender contributes exactly `0.35 x 0.5 = 0.175` to the weighted
overall score through the trust component. -/
theorem claim_C10_unknown_sender_trust_component (s : BECScorer) (now : ℤ)
    (e : EmailToAnalyze) (htr : s.is_trained = true)
    (hpay : e.has_payment_request = false)
    (hts : 0 ≤ s.trust_graph.get_trust_score e.from_addr) :
    ∃ r, s.analyze_email now e = .ok r ∧
      r.trust_score =
        (if 0.5 < s.trust_graph.get_trust_score e.from_addr then 0.0
         else 0.5 - s.trust_graph.get_trust_score e.from_addr) ∧
      r.trust_score ≤ 0.5 ∧ 0.35 * r.trust_score ≤ 0.175 ∧
      (s.trust_graph.node? (pyLower e.from_addr) = none →
        0.35 * r.trust_score = 0.175) := by
  have hts' : (s.analyzeCore now e).trust_score =
      (if 0.5 < s.trust_graph.get_trust_score e.from_addr then 0.0
       else 0.5 - s.trust_graph.get_trust_score e.from_addr) := by
    show (s.trustComponent now e).riskScore = _
    unfold BECScorer.trustComponent
    rw [hpay]
    simp only [Bool.false_eq_true, if_false]
    rfl
  refine ⟨s.analyzeCore now e, by simp [BECScorer.analyze_email, htr],
    hts', ?_, ?_, ?_⟩
  · rw [hts']
    split
    · norm_num
    · linarith
  · rw [hts']
    split
    · norm_num
    · nlinarith
  · intro hnone
    have hz : s.trust_graph.get_trust_score e.from_addr = 0.0 := by
      unfold TrustGraph.get_trust_score
      rw [hnone]
    rw [hts', hz]
    rw [if_neg (by norm_num)]
    norm_num

/-- The inference record used by claim C10's witness: no payment request,
sender never observed. -/
def eC10 : EmailToAnalyze :=
  { from_addr := "ghost@nowhere.com", to_addr := "w@acme.com",
    subject := "hello", body := "note", timestamp := 0 }

/-- Witness for claim C10 at a trained empty scorer, whose unknown sender
has trust 0.0 and trust-component risk exactly 0.5. -/
theorem claim_C10_unknown_sender_trust_component_witness :
    ∃ r, sC1.analyze_email 0 eC10 = .ok r ∧
      r.trust_score =
        (if 0.5 < sC1.trust_graph.get_trust_score eC10.from_addr then 0.0
         else 0.5 - sC1.trust_graph.get_trust_score eC10.from_addr) ∧
      r.trust_score ≤ 0.5 ∧ 0.35 * r.trust_score ≤ 0.175 ∧
      (sC1.trust_graph.node? (pyLower eC10.from_addr) = none →
        0.35 * r.trust_score = 0.175) :=
  claim_C10_unknown_sender_trust_component sC1 0 eC10 rfl rfl
    (by rw [show sC1.trust_graph.get_trust_score eC10.from_addr = 0.0 from rfl]
        norm_num)

/-! ## Claim C4: purity of `analyze_email` -/

/-- Claim C4, amended: `analyze_email` is a pure function of the engine
state, the input email, and the current wall-clock time: the wall clock
enters only through the trust component (the recency factor of
`calculate_relationship_strength`), the temporal and stylometry findings
are independent of it, and two invocations whose trust components agree
yield identical verdicts. The original claim fails because the wall
clock is an implicit third input: see the counterexample. -/
theorem claim_C4_amended_analyze_pure_given_time (s : BECScorer) (e : EmailToAnalyze) (t1 t2 : ℤ) :
    (s.trustComponent t1 e = s.trustComponent t2 e →
      s.analyze_email t1 e = s.analyze_email t2 e) ∧
    (s.analyzeCore t1 e).temporal_findings =
      (s.analyzeCore t2 e).temporal_findings ∧
    (s.analyzeCore t1 e).stylometry_findings =
      (s.analyzeCore t2 e).stylometry_findings := by
  refine ⟨?_, rfl, rfl⟩
  intro h
  unfold BECScorer.analyze_email
  split
  · rfl
  · unfold BECScorer.analyzeCore
    rw [h]

def iC4 : EmailInteraction :=
  { from_addr := "alice@ext.com", to_addr := "bob@acme.com", timestamp := 0,
    subject := "s" }

def gC4 : TrustGraph := (TrustGraph.init "acme.com").add_interaction iC4

def sC4 : BECScorer :=
  { trust_graph := gC4
    temporal_analyzer := {}
    stylometry_engine := {}
    is_trained := true }

def eC4 : EmailToAnalyze :=
  { from_addr := "alice@ext.com", to_addr := "bob@acme.com", subject := "s",
    body := "b", timestamp := 0 }

noncomputable def relOf : Except String BECAnalysisResult → ℝ := fun res =>
  match res with
  | .ok v =>
      match v.trust_findings with
      | .basic _ rel _ _ => rel
      | .payment p => p.relationship_strength
  | .error _ => 0

theorem strengthC4_eval (t : ℤ) :
    gC4.calculate_relationship_strength t "alice@ext.com" "bob@acme.com" =
      min 1.0 (Real.log 2 * 0.3 + 0 * 0.3 + (1 : ℝ) / 365 * 0.2 +
        Real.exp (-((Int.fdiv t 86400 : ℤ) : ℝ) / 90) * 0.2) := by
  have h0 : gC4.calculate_relationship_strength t "alice@ext.com" "bob@acme.com" =
      TrustGraph.strengthOf t [iC4] [] := rfl
  rw [h0]
  unfold TrustGraph.strengthOf
  rw [if_neg (by decide)]
  dsimp only
  have hlog : Real.log (1 + (([iC4].length + List.length ([] : List EmailInteraction) : ℕ) : ℝ)) = Real.log 2 := by
    norm_num
  have hrecip : ((min [iC4].length (List.length ([] : List EmailInteraction)) : ℕ) : ℝ) /
      ((max (max [iC4].length (List.length ([] : List EmailInteraction))) 1 : ℕ) : ℝ) = 0 := by
    norm_num
  have hmin : pyMin (([iC4] ++ ([] : List EmailInteraction)).map (·.timestamp)) = 0 := rfl
  have hmax : pyMax (([iC4] ++ ([] : List EmailInteraction)).map (·.timestamp)) = 0 := rfl
  rw [hlog, hrecip, hmin, hmax]
  have hdur : max 1 (pyDiv (0 - 0) 86400) = 1 := by decide
  rw [hdur]
  have hmindur : min (((1 : ℤ) : ℝ) / 365) 1 = (1 : ℝ) / 365 := by
    rw [min_eq_left (by norm_num)]
    norm_num
  rw [hmindur]
  have hdays : pyDiv (t - 0) 86400 = Int.fdiv t 86400 := by
    rw [sub_zero]; rfl
  rw [hdays]

/-- Counterexample to claim C4: with engine state and input email fixed,
invoking `analyze_email` at wall-clock time 0 and at wall-clock time
77,760,000 s (900 days later) yields different verdicts — the recency
factor `exp(-days_since_last / 90)` of the relationship strength reported
in the trust findings decays from `exp 0` to `exp (-10)`. -/
theorem claim_C4_counterexample :
    sC4.analyze_email 0 eC4 ≠ sC4.analyze_email 77760000 eC4 := by
  intro h
  have h2 := congrArg relOf h
  have e1 : relOf (sC4.analyze_email 0 eC4) =
      gC4.calculate_relationship_strength 0 "alice@ext.com" "bob@acme.com" := rfl
  have e2 : relOf (sC4.analyze_email 77760000 eC4) =
      gC4.calculate_relationship_strength 77760000 "alice@ext.com" "bob@acme.com" := rfl
  rw [e1, e2, strengthC4_eval 0, strengthC4_eval 77760000] at h2
  have hf0 : Int.fdiv (0 : ℤ) 86400 = 0 := by decide
  have hf9 : Int.fdiv (77760000 : ℤ) 86400 = 900 := by decide
  rw [hf0, hf9] at h2
  have hx0 : -(((0 : ℤ) : ℝ)) / 90 = 0 := by norm_num
  have hx9 : -(((900 : ℤ) : ℝ)) / 90 = -10 := by norm_num
  rw [hx0, hx9, Real.exp_zero] at h2
  have hlog2 : Real.log 2 < 0.6931471808 := Real.log_two_lt_d9
  have hlogpos : 0 < Real.log 2 := Real.log_pos (by norm_num)
  have hexp10 : Real.exp (-10) < 1 := by
    rw [← Real.exp_zero]
    exact Real.exp_lt_exp.mpr (by norm_num)
  have hexp10pos : 0 < Real.exp (-10) := Real.exp_pos _
  have hsa : Real.log 2 * 0.3 + 0 * 0.3 + (1 : ℝ) / 365 * 0.2 + 1 * 0.2 ≤ (1.0 : ℝ) := by
    nlinarith
  have hsb : Real.log 2 * 0.3 + 0 * 0.3 + (1 : ℝ) / 365 * 0.2 +
      Real.exp (-10) * 0.2 ≤ (1.0 : ℝ) := by nlinarith
  rw [min_eq_right hsa, min_eq_right hsb] at h2
  nlinarith

theorem strengthOf_nil_nil (t : ℤ) :
    TrustGraph.strengthOf t ([] : List EmailInteraction) [] = 0.0 := by
  unfold TrustGraph.strengthOf
  rw [if_pos (by decide : (([] : List EmailInteraction).isEmpty &&
    ([] : List EmailInteraction).isEmpty) = true)]

theorem trustComponent_sC1_const :
    sC1.trustComponent 0 eC1 = sC1.trustComponent 86400 eC1 := by
  have hrel : ∀ t : ℤ, sC1.trust_graph.calculate_relationship_strength t
      eC1.from_addr eC1.to_addr = 0.0 := by
    intro t
    have h : sC1.trust_graph.calculate_relationship_strength t
        eC1.from_addr eC1.to_addr = TrustGraph.strengthOf t [] [] := rfl
    rw [h, strengthOf_nil_nil]
  unfold BECScorer.trustComponent
  rw [show eC1.has_payment_request = false from rfl]
  simp only [Bool.false_eq_true, if_false]
  rw [hrel 0, hrel 86400]

/-- Witness for the amended claim C4: on a trained empty scorer the
trust components at times 0 and 86,400 agree, so the verdicts agree. -/
theorem claim_C4_amended_analyze_pure_given_time_witness :
    (sC1.trustComponent 0 eC1 = sC1.trustComponent 86400 eC1) ∧
    sC1.analyze_email 0 eC1 = sC1.analyze_email 86400 eC1 ∧
    (sC1.analyzeCore 0 eC1).temporal_findings =
      (sC1.analyzeCore 86400 eC1).temporal_findings ∧
    (sC1.analyzeCore 0 eC1).stylometry_findings =
      (sC1.analyzeCore 86400 eC1).stylometry_findings :=
  ⟨trustComponent_sC1_const,
   (claim_C4_amended_analyze_pure_given_time sC1 eC1 0 86400).1 trustComponent_sC1_const,
   (claim_C4_amended_analyze_pure_given_time sC1 eC1 0 86400).2.1,
   (claim_C4_amended_analyze_pure_given_time sC1 eC1 0 86400).2.2⟩

/-! ## Lookup and update lemmas, and claim C8 -/

set_option maxHeartbeats 1000000 in
theorem lowerChar_idem (c : Char) : lowerChar (lowerChar c) = lowerChar c := by
  by_cases h : c ∈ ['A', 'B', 'C', 'D', 'E', 'F', 'G', 'H', 'I', 'J', 'K',
      'L', 'M', 'N', 'O', 'P', 'Q', 'R', 'S', 'T', 'U', 'V', 'W', 'X', 'Y', 'Z']
  · fin_cases h <;> rfl
  · have hfix : lowerChar c = c := by
      unfold lowerChar
      split
      all_goals first | rfl | (exact absurd (by decide) h)
    rw [hfix, hfix]

theorem map_lowerChar_idem (l : List Char) :
    (l.map lowerChar).map lowerChar = l.map lowerChar := by
  induction l with
  | nil => rfl
  | cons a l ih => simp only [List.map_cons, lowerChar_idem a, ih]

theorem pyLower_idem (s : String) : pyLower (pyLower s) = pyLower s := by
  unfold pyLower
  exact congrArg String.mk (map_lowerChar_idem s.data)

/-! ## association list lemmas -/

theorem lookupA_cons {K V : Type} [BEq K] (p : K × V) (l : List (K × V)) (k : K) :
    lookupA (p :: l) k = if p.1 == k then some p.2 else lookupA l k := by
  unfold lookupA
  rcases h : p.1 == k with _ | _
  · simp [List.find?, h]
  · simp [List.find?, h]

theorem updA_cons {K V : Type} [BEq K] (p : K × V) (l : List (K × V)) (k : K)
    (f : V → V) :
    updA (p :: l) k f = (if p.1 == k then (p.1, f p.2) else p) :: updA l k f := by
  unfold updA
  rcases h : p.1 == k with _ | _ <;> simp [h]

theorem lookupA_updA {K V : Type} [BEq K] [LawfulBEq K] (l : List (K × V))
    (k k' : K) (f : V → V) :
    lookupA (updA l k f) k' =
      (lookupA l k').map (fun v => if k' == k then f v else v) := by
  induction l with
  | nil => rfl
  | cons p l ih =>
      rw [updA_cons]
      rcases h : p.1 == k with _ | _
      · rw [if_neg Bool.false_ne_true, lookupA_cons, lookupA_cons]
        rcases h' : p.1 == k' with _ | _
        · rw [if_neg Bool.false_ne_true, if_neg Bool.false_ne_true, ih]
        · rw [if_pos rfl, if_pos rfl]
          have hk : p.1 = k' := eq_of_beq h'
          have hkk : (k' == k) = false := by
            rw [← hk]
            exact h
          simp [hkk]
      · rw [if_pos rfl, lookupA_cons, lookupA_cons]
        dsimp only
        rcases h' : p.1 == k' with _ | _
        · rw [if_neg Bool.false_ne_true, if_neg Bool.false_ne_true, ih]
        · rw [if_pos rfl, if_pos rfl]
          have hk : p.1 = k' := eq_of_beq h'
          have hkk : (k' == k) = true := by
            rw [← hk]
            exact h
          simp [hkk]

theorem lookupA_append {K V : Type} [BEq K] (l m : List (K × V)) (k : K) :
    lookupA (l ++ m) k =
      match lookupA l k with
      | some v => some v
      | none => lookupA m k := by
  induction l with
  | nil => rfl
  | cons p l ih =>
      rw [List.cons_append, lookupA_cons, lookupA_cons]
      rcases h : p.1 == k with _ | _
      · simp only [Bool.false_eq_true, if_false, ih]
      · simp

theorem lookupA_singleton_ne {K V : Type} [BEq K] {k k' : K} (v : V)
    (h : (k == k') = false) : lookupA [(k, v)] k' = none := by
  rw [lookupA_cons]
  simp [h, lookupA]

/-! ## C8 lemmas -/

namespace TrustGraph

theorem ensureNode_edges (g : TrustGraph) (k : String) :
    (g.ensureNode k).edges = g.edges := by
  unfold ensureNode
  dsimp only
  split <;> rfl

theorem updNode_edges (g : TrustGraph) (k : String) (f : NodeProfile → NodeProfile) :
    (g.updNode k f).edges = g.edges := rfl

theorem ensureNode_node?_self (g : TrustGraph) (k : String) :
    (g.ensureNode k).node? (pyLower k) =
      some ((g.node? (pyLower k)).getD (g.freshNode (pyLower k))) := by
  unfold ensureNode node?
  dsimp only
  rcases h : lookupA g.nodes (pyLower k) with _ | v
  · rw [if_neg (by simp [h])]
    dsimp only
    rw [lookupA_append, h]
    rw [lookupA_cons]
    simp
  · rw [if_pos (by simp [h]), h]
    rfl

theorem ensureNode_node?_ne (g : TrustGraph) (k a : String)
    (h : a ≠ pyLower k) :
    (g.ensureNode k).node? a = g.node? a := by
  unfold ensureNode node?
  dsimp only
  split
  · rfl
  · dsimp only
    rw [lookupA_append]
    rcases hl : lookupA g.nodes a with _ | v
    · rw [lookupA_cons]
      rw [if_neg (by simp [Ne.symm h])]
      rfl
    · rfl

theorem updNode_node?_self (g : TrustGraph) (k : String)
    (f : NodeProfile → NodeProfile) :
    (g.updNode k f).node? k = (g.node? k).map f := by
  unfold updNode node?
  rw [lookupA_updA]
  simp

theorem updNode_node?_ne (g : TrustGraph) (k a : String)
    (f : NodeProfile → NodeProfile) (h : a ≠ k) :
    (g.updNode k f).node? a = g.node? a := by
  unfold updNode node?
  rw [lookupA_updA]
  have : (a == k) = false := by simp [h]
  simp [this]

theorem appendEdge_node? (g : TrustGraph) (k : String × String)
    (i : EmailInteraction) (a : String) :
    (g.appendEdge k i).node? a = g.node? a := by
  unfold appendEdge node?
  split <;> rfl

theorem appendEdge_edgesGet_self (g : TrustGraph) (k : String × String)
    (i : EmailInteraction) :
    (g.appendEdge k i).edgesGet k = g.edgesGet k ++ [i] := by
  unfold appendEdge edgesGet
  rcases h : lookupA g.edges k with _ | l
  · rw [if_neg (by simp [h])]
    dsimp only
    rw [lookupA_append, h, lookupA_cons]
    simp
  · rw [if_pos (by simp [h])]
    dsimp only
    rw [lookupA_updA, h]
    simp

end TrustGraph

namespace TrustGraph

theorem ensureNode_freshNode (g : TrustGraph) (k a : String) :
    (g.ensureNode k).freshNode a = g.freshNode a := by
  unfold ensureNode freshNode isInternal
  dsimp only
  split <;> rfl

theorem add_interaction_edges_aux (g : TrustGraph) (i : EmailInteraction) :
    ((if i.has_payment_request then
        ((((g.ensureNode (pyLower i.from_addr)).ensureNode (pyLower i.to_addr)).updNode
          (pyLower i.from_addr) (fun n =>
            { n with
              first_seen := some (n.first_seen.getD i.timestamp)
              last_seen := some i.timestamp
              interaction_count := n.interaction_count + 1
              outgoing_count := n.outgoing_count + 1 })).updNode
          (pyLower i.to_addr) (fun n =>
            { n with
              first_seen := some (n.first_seen.getD i.timestamp)
              last_seen := some i.timestamp
              incoming_count := n.incoming_count + 1 })).updNode
          (pyLower i.from_addr) (fun n =>
            { n with payment_requests_made := n.payment_requests_made + 1 })
      else
        (((g.ensureNode (pyLower i.from_addr)).ensureNode (pyLower i.to_addr)).updNode
          (pyLower i.from_addr) (fun n =>
            { n with
              first_seen := some (n.first_seen.getD i.timestamp)
              last_seen := some i.timestamp
              interaction_count := n.interaction_count + 1
              outgoing_count := n.outgoing_count + 1 })).updNode
          (pyLower i.to_addr) (fun n =>
            { n with
              first_seen := some (n.first_seen.getD i.timestamp)
              last_seen := some i.timestamp
              incoming_count := n.incoming_count + 1 })).edges) = g.edges := by
  split <;>
    simp only [updNode_edges, ensureNode_edges]

/-- Claim C8, amended: `add_interaction` creates either endpoint node on
first reference; the sender's total and outgoing interaction counts each
increase by one (and the payment counter when the interaction carries a
payment request), the recipient's incoming count increases by one while
the recipient's total interaction count is left unchanged, both
endpoints' last-seen is set to the interaction's timestamp (first-seen on
first reference), and the interaction is appended to the (from, to)
directed edge. The state is the only result: the embedding returns the
updated graph, mirroring a side-effect-only method. -/
theorem claim_C8_amended_add_interaction (g : TrustGraph) (i : EmailInteraction)
    (hne : pyLower i.from_addr ≠ pyLower i.to_addr)
    (n0 m0 : NodeProfile)
    (h1 : (g.node? (pyLower i.from_addr)).getD
      (g.freshNode (pyLower i.from_addr)) = n0)
    (h2 : (g.node? (pyLower i.to_addr)).getD
      (g.freshNode (pyLower i.to_addr)) = m0) :
    (g.add_interaction i).node? (pyLower i.from_addr) =
      some { n0 with
        first_seen := some (n0.first_seen.getD i.timestamp)
        last_seen := some i.timestamp
        interaction_count := n0.interaction_count + 1
        outgoing_count := n0.outgoing_count + 1
        payment_requests_made := n0.payment_requests_made +
          (if i.has_payment_request then 1 else 0) } ∧
    (g.add_interaction i).node? (pyLower i.to_addr) =
      some { m0 with
        first_seen := some (m0.first_seen.getD i.timestamp)
        last_seen := some i.timestamp
        incoming_count := m0.incoming_count + 1 } ∧
    (g.add_interaction i).edgesGet (pyLower i.from_addr, pyLower i.to_addr) =
      g.edgesGet (pyLower i.from_addr, pyLower i.to_addr) ++ [i] := by
  unfold add_interaction
  dsimp only
  have hfa1 : ((g.ensureNode (pyLower i.from_addr)).node? (pyLower i.from_addr)) =
      some n0 := by
    have := ensureNode_node?_self g (pyLower i.from_addr)
    rw [pyLower_idem] at this
    rw [this, h1]
  have hta1 : (((g.ensureNode (pyLower i.from_addr)).ensureNode
      (pyLower i.to_addr)).node? (pyLower i.to_addr)) = some m0 := by
    have := ensureNode_node?_self (g.ensureNode (pyLower i.from_addr))
      (pyLower i.to_addr)
    rw [pyLower_idem] at this
    rw [this, ensureNode_node?_ne g _ _ (by rw [pyLower_idem]; exact hne.symm),
      ensureNode_freshNode, h2]
  have hfa2 : (((g.ensureNode (pyLower i.from_addr)).ensureNode
      (pyLower i.to_addr)).node? (pyLower i.from_addr)) = some n0 := by
    rw [ensureNode_node?_ne _ _ _ (by rw [pyLower_idem]; exact hne), hfa1]
  refine ⟨?_, ?_, ?_⟩
  · rw [appendEdge_node?]
    rcases hp : i.has_payment_request with _ | _
    · simp only [Bool.false_eq_true, if_false]
      rw [updNode_node?_ne _ _ _ _ hne, updNode_node?_self, hfa2]
      simp
    · rw [if_pos (rfl : (true : Bool) = true)]
      rw [updNode_node?_self, updNode_node?_ne _ _ _ _ hne,
        updNode_node?_self, hfa2]
      simp
  · rw [appendEdge_node?]
    rcases hp : i.has_payment_request with _ | _
    · simp only [Bool.false_eq_true, if_false]
      rw [updNode_node?_self, updNode_node?_ne _ _ _ _ hne.symm, hta1]
      rfl
    · rw [if_pos (rfl : (true : Bool) = true)]
      rw [updNode_node?_ne _ _ _ _ hne.symm, updNode_node?_self,
        updNode_node?_ne _ _ _ _ hne.symm, hta1]
      rfl
  · rw [appendEdge_edgesGet_self]
    unfold edgesGet
    rw [add_interaction_edges_aux]

end TrustGraph

/-- The empty graph of claim C8's counterexample and witness. -/
def gC8 : TrustGraph := TrustGraph.init "x.com"

/-- The single recorded interaction of claim C8's counterexample. -/
def iC8 : EmailInteraction :=
  { from_addr := "alice@x.com", to_addr := "bob@y.com", timestamp := 5,
    subject := "s" }

/-- Counterexample to claim C8: after recording one interaction from
`alice@x.com` to `bob@y.com` in an empty graph, the recipient's total
interaction count is 0, not 1 — `add_interaction` increments only the
recipient's incoming count, never the recipient's total. -/
theorem claim_C8_counterexample :
    ((gC8.add_interaction iC8).node? "bob@y.com").map (·.interaction_count) =
      some 0 ∧
    ((gC8.add_interaction iC8).node? "bob@y.com").map (·.incoming_count) =
      some 1 ∧
    ((gC8.add_interaction iC8).node? "alice@x.com").map (·.interaction_count) =
      some 1 ∧
    (0 : ℕ) ≠ 1 :=
  ⟨rfl, rfl, rfl, by decide⟩

/-- Witness for the amended claim C8 at a concrete graph and
interaction. -/
theorem claim_C8_amended_add_interaction_witness :
    (gC8.add_interaction iC8).node? (pyLower iC8.from_addr) =
      some { (gC8.node? (pyLower iC8.from_addr)).getD
          (gC8.freshNode (pyLower iC8.from_addr)) with
        first_seen := some (((gC8.node? (pyLower iC8.from_addr)).getD
          (gC8.freshNode (pyLower iC8.from_addr))).first_seen.getD iC8.timestamp)
        last_seen := some iC8.timestamp
        interaction_count := ((gC8.node? (pyLower iC8.from_addr)).getD
          (gC8.freshNode (pyLower iC8.from_addr))).interaction_count + 1
        outgoing_count := ((gC8.node? (pyLower iC8.from_addr)).getD
          (gC8.freshNode (pyLower iC8.from_addr))).outgoing_count + 1
        payment_requests_made := ((gC8.node? (pyLower iC8.from_addr)).getD
          (gC8.freshNode (pyLower iC8.from_addr))).payment_requests_made +
          (if iC8.has_payment_request then 1 else 0) } ∧
    (gC8.add_interaction iC8).node? (pyLower iC8.to_addr) =
      some { (gC8.node? (pyLower iC8.to_addr)).getD
          (gC8.freshNode (pyLower iC8.to_addr)) with
        first_seen := some (((gC8.node? (pyLower iC8.to_addr)).getD
          (gC8.freshNode (pyLower iC8.to_addr))).first_seen.getD iC8.timestamp)
        last_seen := some iC8.timestamp
        incoming_count := ((gC8.node? (pyLower iC8.to_addr)).getD
          (gC8.freshNode (pyLower iC8.to_addr))).incoming_count + 1 } ∧
    (gC8.add_interaction iC8).edgesGet
        (pyLower iC8.from_addr, pyLower iC8.to_addr) =
      gC8.edgesGet (pyLower iC8.from_addr, pyLower iC8.to_addr) ++ [iC8] :=
  TrustGraph.claim_C8_amended_add_interaction gC8 iC8 (by decide) _ _ rfl rfl

/-! ## Claim C9: the timezone-mismatch check -/

/-- Claim C9, amended: for an analyzed event whose sender has a baseline
(profile with at least 20 emails), PROVIDED both the event's timezone
offset and the profile's primary timezone are nonzero (the guard the
original claim omits), an absolute difference above 60 minutes adds 0.25
to the anomaly accumulator and emits the timezone-mismatch factor, and a
difference above 300 minutes adds a further 0.2 and the major-shift
factor; the reported anomaly score is the clamped sum of the four
checks' contributions. -/
theorem claim_C9_amended_timezone_check (a : TemporalAnalyzer) (ev : EmailEvent)
    (p : TemporalProfile)
    (h : lookupA a.profiles (pyLower ev.sender) = some p)
    (h20 : ¬ p.total_emails < 20)
    (htz : ev.timezone_offset ≠ 0) (hptz : p.primary_timezone ≠ 0)
    (h60 : 60 < |ev.timezone_offset - p.primary_timezone|) :
    (TemporalAnalyzer.tzCheck p ev).1 =
      0.25 + (if 300 < |ev.timezone_offset - p.primary_timezone| then (0.2 : ℝ)
        else 0) ∧
    "TIMEZONE_MISMATCH" ∈ (a.analyze_email ev).anomalies ∧
    (300 < |ev.timezone_offset - p.primary_timezone| →
      "MAJOR_TZ_SHIFT" ∈ (a.analyze_email ev).anomalies) ∧
    (a.analyze_email ev).anomaly_score =
      min 1.0 ((TemporalAnalyzer.hourCheck p (hourOf ev.timestamp)
          (TemporalAnalyzer.get_hourly_probability p (hourOf ev.timestamp))).1 +
        (TemporalAnalyzer.dayCheck
          (TemporalAnalyzer.get_daily_probability p (weekdayOf ev.timestamp))).1 +
        (TemporalAnalyzer.tzCheck p ev).1 +
        (TemporalAnalyzer.lateCheck p (hourOf ev.timestamp)
          (TemporalAnalyzer.get_hourly_probability p (hourOf ev.timestamp))).1) := by
  have hrep : a.analyze_email ev = TemporalAnalyzer.reportOf p ev := by
    unfold TemporalAnalyzer.analyze_email
    rw [h]
    dsimp only
    rw [if_neg h20]
  have htzval : (TemporalAnalyzer.tzCheck p ev).1 =
      0.25 + (if 300 < |ev.timezone_offset - p.primary_timezone| then (0.2 : ℝ)
        else 0) := by
    unfold TemporalAnalyzer.tzCheck
    rw [if_pos ⟨htz, hptz⟩]
    dsimp only
    rw [if_pos h60]
    by_cases h300 : 300 < |ev.timezone_offset - p.primary_timezone|
    · rw [if_pos h300, if_pos h300]
    · rw [if_neg h300, if_neg h300]
      norm_num
  have htztag : "TIMEZONE_MISMATCH" ∈ (TemporalAnalyzer.tzCheck p ev).2 ∧
      (300 < |ev.timezone_offset - p.primary_timezone| →
        "MAJOR_TZ_SHIFT" ∈ (TemporalAnalyzer.tzCheck p ev).2) := by
    unfold TemporalAnalyzer.tzCheck
    rw [if_pos ⟨htz, hptz⟩]
    dsimp only
    rw [if_pos h60]
    by_cases h300 : 300 < |ev.timezone_offset - p.primary_timezone|
    · rw [if_pos h300]
      exact ⟨by simp, fun _ => by simp⟩
    · rw [if_neg h300]
      exact ⟨by simp, fun hc => absurd hc h300⟩
  have hanoms : (a.analyze_email ev).anomalies =
      (TemporalAnalyzer.hourCheck p (hourOf ev.timestamp)
        (TemporalAnalyzer.get_hourly_probability p (hourOf ev.timestamp))).2 ++
      (TemporalAnalyzer.dayCheck
        (TemporalAnalyzer.get_daily_probability p (weekdayOf ev.timestamp))).2 ++
      (TemporalAnalyzer.tzCheck p ev).2 ++
      (TemporalAnalyzer.lateCheck p (hourOf ev.timestamp)
        (TemporalAnalyzer.get_hourly_probability p (hourOf ev.timestamp))).2 := by
    rw [hrep]
    rfl
  refine ⟨htzval, ?_, ?_, ?_⟩
  · rw [hanoms]
    simp only [List.mem_append]
    exact Or.inl (Or.inr htztag.1)
  · intro h300
    rw [hanoms]
    simp only [List.mem_append]
    exact Or.inl (Or.inr (htztag.2 h300))
  · rw [hrep]
    rfl

/-- A baseline profile (20 emails, all at hour 10 on Mondays, all from
UTC+5 i.e. offset 300) used by claim C9's witness and counterexample. -/
def profC9 : TemporalProfile :=
  { address := "ceo@x.com"
    hourly_distribution := [(10, 20)]
    daily_distribution := [(0, 20)]
    response_times := []
    observed_timezones := List.replicate 20 300
    total_emails := 20
    avg_response_time := 0.0
    std_response_time := 0.0
    primary_timezone := 300
    active_hours := [10] }

/-- The analyzer holding `profC9`. -/
def aC9 : TemporalAnalyzer :=
  { profiles := [("ceo@x.com", profC9)], email_threads := [] }

/-- A Monday-10:00 event claiming offset UTC+8 (480): 180 minutes from
the baseline's 300. -/
def evC9mismatch : EmailEvent :=
  { sender := "ceo@x.com", recipient := "r@x.com",
    timestamp := 4 * 86400 + 10 * 3600, timezone_offset := 480 }

/-- A Monday-10:00 event claiming offset 0 (UTC): 300 minutes from the
baseline's primary timezone, but with the zero offset that the source's
guard silently skips. -/
def evC9utc : EmailEvent :=
  { sender := "ceo@x.com", recipient := "r@x.com",
    timestamp := 4 * 86400 + 10 * 3600, timezone_offset := 0 }

/-- Witness for the amended claim C9 at a concrete analyzer and event. -/
theorem claim_C9_amended_timezone_check_witness :
    (TemporalAnalyzer.tzCheck profC9 evC9mismatch).1 =
      0.25 + (if 300 < |evC9mismatch.timezone_offset - profC9.primary_timezone|
        then (0.2 : ℝ) else 0) ∧
    "TIMEZONE_MISMATCH" ∈ (aC9.analyze_email evC9mismatch).anomalies ∧
    (300 < |evC9mismatch.timezone_offset - profC9.primary_timezone| →
      "MAJOR_TZ_SHIFT" ∈ (aC9.analyze_email evC9mismatch).anomalies) ∧
    (aC9.analyze_email evC9mismatch).anomaly_score =
      min 1.0 ((TemporalAnalyzer.hourCheck profC9 (hourOf evC9mismatch.timestamp)
          (TemporalAnalyzer.get_hourly_probability profC9
            (hourOf evC9mismatch.timestamp))).1 +
        (TemporalAnalyzer.dayCheck (TemporalAnalyzer.get_daily_probability profC9
          (weekdayOf evC9mismatch.timestamp))).1 +
        (TemporalAnalyzer.tzCheck profC9 evC9mismatch).1 +
        (TemporalAnalyzer.lateCheck profC9 (hourOf evC9mismatch.timestamp)
          (TemporalAnalyzer.get_hourly_probability profC9
            (hourOf evC9mismatch.timestamp))).1) :=
  claim_C9_amended_timezone_check aC9 evC9mismatch profC9 rfl (by decide) (by decide)
    (by decide) (by decide)

/-- Counterexample to claim C9 as stated: the sender has a baseline and
the event's offset (0) differs from the primary timezone (300) by 300
minutes, which exceeds 60 — yet no timezone-mismatch factor is emitted
and the anomaly score is 0, because the check is guarded by
`event.timezone_offset != 0`. -/
theorem claim_C9_counterexample :
    (aC9.analyze_email evC9utc).has_baseline = true ∧
    (aC9.analyze_email evC9utc).primary_timezone = some 300 ∧
    evC9utc.timezone_offset = 0 ∧
    60 < |evC9utc.timezone_offset - 300| ∧
    (aC9.analyze_email evC9utc).anomalies = [] ∧
    (aC9.analyze_email evC9utc).anomaly_score = 0 := by
  have hrep : aC9.analyze_email evC9utc = TemporalAnalyzer.reportOf profC9 evC9utc := by
    unfold TemporalAnalyzer.analyze_email
    rw [show lookupA aC9.profiles (pyLower evC9utc.sender) = some profC9 from rfl]
    dsimp only
    rw [if_neg (by decide : ¬ profC9.total_emails < 20)]
  have hhp : TemporalAnalyzer.get_hourly_probability profC9
      (hourOf evC9utc.timestamp) = ((20 : ℕ) : ℝ) / ((20 : ℕ) : ℝ) := rfl
  have hdp : TemporalAnalyzer.get_daily_probability profC9
      (weekdayOf evC9utc.timestamp) = ((20 : ℕ) : ℝ) / ((20 : ℕ) : ℝ) := rfl
  have hc2 : TemporalAnalyzer.hourCheck profC9 (hourOf evC9utc.timestamp)
      (TemporalAnalyzer.get_hourly_probability profC9
        (hourOf evC9utc.timestamp)) = (0, []) := by
    unfold TemporalAnalyzer.hourCheck
    rw [if_neg]
    rw [hhp]
    norm_num
  have hc3 : TemporalAnalyzer.dayCheck (TemporalAnalyzer.get_daily_probability
      profC9 (weekdayOf evC9utc.timestamp)) = (0, []) := by
    unfold TemporalAnalyzer.dayCheck
    rw [if_neg]
    rw [hdp]
    norm_num
  have hc4 : TemporalAnalyzer.tzCheck profC9 evC9utc = (0, []) := by
    unfold TemporalAnalyzer.tzCheck
    rw [if_neg (by decide)]
  have hc5 : TemporalAnalyzer.lateCheck profC9 (hourOf evC9utc.timestamp)
      (TemporalAnalyzer.get_hourly_probability profC9
        (hourOf evC9utc.timestamp)) = (0, []) := by
    unfold TemporalAnalyzer.lateCheck
    rw [if_neg (by decide)]
  refine ⟨by rw [hrep]; rfl, by rw [hrep]; rfl, rfl, by decide, ?_, ?_⟩
  · have : (aC9.analyze_email evC9utc).anomalies =
        (TemporalAnalyzer.hourCheck profC9 (hourOf evC9utc.timestamp)
          (TemporalAnalyzer.get_hourly_probability profC9
            (hourOf evC9utc.timestamp))).2 ++
        (TemporalAnalyzer.dayCheck (TemporalAnalyzer.get_daily_probability
          profC9 (weekdayOf evC9utc.timestamp))).2 ++
        (TemporalAnalyzer.tzCheck profC9 evC9utc).2 ++
        (TemporalAnalyzer.lateCheck profC9 (hourOf evC9utc.timestamp)
          (TemporalAnalyzer.get_hourly_probability profC9
            (hourOf evC9utc.timestamp))).2 := by
      rw [hrep]
      rfl
    rw [this, hc2, hc3, hc4, hc5]
    rfl
  · have : (aC9.analyze_email evC9utc).anomaly_score =
        min 1.0 ((TemporalAnalyzer.hourCheck profC9 (hourOf evC9utc.timestamp)
          (TemporalAnalyzer.get_hourly_probability profC9
            (hourOf evC9utc.timestamp))).1 +
        (TemporalAnalyzer.dayCheck (TemporalAnalyzer.get_daily_probability
          profC9 (weekdayOf evC9utc.timestamp))).1 +
        (TemporalAnalyzer.tzCheck profC9 evC9utc).1 +
        (TemporalAnalyzer.lateCheck profC9 (hourOf evC9utc.timestamp)
          (TemporalAnalyzer.get_hourly_probability profC9
            (hourOf evC9utc.timestamp))).1) := by
      rw [hrep]
      rfl
    rw [this, hc2, hc3, hc4, hc5]
    norm_num

/-! ## C7 machinery -/

namespace TemporalAnalyzer

/-- The response-time samples a delta list contributes to one profile:
the guarded deltas whose responder lowercases to the given address. -/
noncomputable def keptFor (ds : List (String × ℝ)) (addr : String) : List ℝ :=
  ds.filterMap (fun d =>
    if pyLower d.1 = addr ∧ 0 < d.2 ∧ d.2 < 10080 then some d.2 else none)

theorem withProfile_threads (a : TemporalAnalyzer) (email : String)
    (f : TemporalProfile → TemporalProfile) :
    (a.withProfile email f).email_threads = a.email_threads := by
  unfold withProfile
  dsimp only
  split <;> rfl

theorem withProfile_lookup_self (a : TemporalAnalyzer) (email : String)
    (f : TemporalProfile → TemporalProfile) :
    lookupA (a.withProfile email f).profiles (pyLower email) =
      some (f ((lookupA a.profiles (pyLower email)).getD
        { address := pyLower email })) := by
  unfold withProfile
  dsimp only
  rcases h : lookupA a.profiles (pyLower email) with _ | v
  · rw [if_neg (by simp [h])]
    dsimp only
    rw [lookupA_append, h, lookupA_cons]
    simp
  · rw [if_pos (by simp [h])]
    dsimp only
    rw [lookupA_updA, h]
    simp

theorem withProfile_lookup_ne (a : TemporalAnalyzer) (email : String)
    (f : TemporalProfile → TemporalProfile) (b : String)
    (hb : b ≠ pyLower email) :
    lookupA (a.withProfile email f).profiles b = lookupA a.profiles b := by
  unfold withProfile
  dsimp only
  split
  · dsimp only
    rw [lookupA_updA]
    have : (b == pyLower email) = false := by simp [hb]
    simp [this]
  · dsimp only
    rw [lookupA_append]
    rcases hl : lookupA a.profiles b with _ | v
    · rw [lookupA_cons]
      rw [if_neg (by simp [Ne.symm hb])]
      rfl
    · rfl

theorem appendRT_threads (a : TemporalAnalyzer) (d : String × ℝ) :
    (appendRT a d).email_threads = a.email_threads := by
  unfold appendRT
  split
  · rw [withProfile_threads]
  · rfl

theorem foldl_appendRT_threads (ds : List (String × ℝ)) (a : TemporalAnalyzer) :
    (ds.foldl appendRT a).email_threads = a.email_threads := by
  induction ds generalizing a with
  | nil => rfl
  | cons d ds ih => rw [List.foldl_cons, ih, appendRT_threads]

theorem foldl_appendRT_lookup (ds : List (String × ℝ)) (a : TemporalAnalyzer)
    (addr : String) :
    lookupA ((ds.foldl appendRT a).profiles) addr =
      match lookupA a.profiles addr with
      | some p => some { p with
          response_times := p.response_times ++ keptFor ds addr }
      | none =>
          if keptFor ds addr = [] then none
          else some { address := addr, response_times := keptFor ds addr } := by
  induction ds generalizing a with
  | nil =>
      rcases h : lookupA a.profiles addr with _ | p
      · simp [keptFor, h]
      · simp [keptFor, h]
  | cons d ds ih =>
      rw [List.foldl_cons, ih]
      unfold keptFor
      rw [List.filterMap_cons]
      by_cases hgood : pyLower d.1 = addr ∧ 0 < d.2 ∧ d.2 < 10080
      · rw [if_pos hgood]
        have happ : appendRT a d =
            a.withProfile d.1 (fun p =>
              { p with response_times := p.response_times ++ [d.2] }) := by
          unfold appendRT
          rw [if_pos ⟨hgood.2.1, hgood.2.2⟩]
        rw [happ]
        rcases h : lookupA a.profiles addr with _ | p
        · have hl := withProfile_lookup_self a d.1 (fun p =>
            { p with response_times := p.response_times ++ [d.2] })
          rw [hgood.1] at hl
          rw [hl, h]
          dsimp only
          have : keptFor (d :: ds) addr ≠ [] := by
            unfold keptFor
            rw [List.filterMap_cons, if_pos hgood]
            simp
          simp only [Option.getD_none]
          rfl
        · have hl := withProfile_lookup_self a d.1 (fun p =>
            { p with response_times := p.response_times ++ [d.2] })
          rw [hgood.1] at hl
          rw [hl, h]
          dsimp only
          simp only [Option.getD_some]
          rw [List.append_assoc]
          rfl
      · have hsplit : ¬ (0 < d.2 ∧ d.2 < 10080) ∨ pyLower d.1 ≠ addr := by
          by_cases hk : pyLower d.1 = addr
          · left
            intro hv
            exact hgood ⟨hk, hv⟩
          · right
            exact hk
        rw [if_neg hgood]
        rcases hsplit with hv | hk
        · have happ : appendRT a d = a := by
            unfold appendRT
            rw [if_neg hv]
          rw [happ]
        · by_cases hv : 0 < d.2 ∧ d.2 < 10080
          · have happ : appendRT a d =
                a.withProfile d.1 (fun p =>
                  { p with response_times := p.response_times ++ [d.2] }) := by
              unfold appendRT
              rw [if_pos hv]
            rw [happ, withProfile_lookup_ne _ _ _ _ (Ne.symm hk)]
          · have happ : appendRT a d = a := by
              unfold appendRT
              rw [if_neg hv]
            rw [happ]

end TemporalAnalyzer

theorem lookupA_map_value {K V W : Type} [BEq K] (l : List (K × V))
    (f : V → W) (k : K) :
    lookupA (l.map (fun kp => (kp.1, f kp.2))) k = (lookupA l k).map f := by
  induction l with
  | nil => rfl
  | cons p l ih =>
      rw [List.map_cons, lookupA_cons, lookupA_cons]
      rcases h : p.1 == k with _ | _
      · simpa using ih
      · simp

namespace TemporalAnalyzer

theorem sortEvents_idem (l : List EmailEvent) :
    sortEvents (sortEvents l) = sortEvents l :=
  List.Sorted.insertionSort_eq (List.sorted_insertionSort evLe l)

theorem sortEvents_length (l : List EmailEvent) :
    (sortEvents l).length = l.length :=
  (List.perm_insertionSort evLe l).length_eq

theorem sortThreadEntry_deltas (te : String × List EmailEvent) :
    (if (sortThreadEntry te).2.length < 2 then []
      else threadDeltas (sortEvents (sortThreadEntry te).2)) =
    (if te.2.length < 2 then [] else threadDeltas (sortEvents te.2)) := by
  unfold sortThreadEntry
  dsimp only
  by_cases h : te.2.length < 2
  · simp only [if_pos h]
  · simp only [if_neg h]
    have hlen : (sortEvents te.2).length = te.2.length := sortEvents_length te.2
    rw [if_neg (by rw [hlen]; exact h), sortEvents_idem]

theorem allDeltas_map_sort (T : List (String × List EmailEvent)) :
    allDeltas (T.map sortThreadEntry) = allDeltas T := by
  unfold allDeltas
  rw [List.flatMap_map]
  refine List.flatMap_congr ?_
  intro te _
  exact sortThreadEntry_deltas te

theorem crt_profiles_lookup (a : TemporalAnalyzer) (addr : String) :
    lookupA a.calculate_response_times.profiles addr =
      lookupA ((allDeltas a.email_threads).foldl appendRT a).profiles addr := rfl

theorem crt_threads (a : TemporalAnalyzer) :
    a.calculate_response_times.email_threads =
      a.email_threads.map sortThreadEntry := by
  unfold calculate_response_times
  dsimp only
  rw [foldl_appendRT_threads]

theorem finalize_profiles_lookup (a : TemporalAnalyzer) (addr : String) :
    lookupA a.finalize_profiles.profiles addr =
      (lookupA a.calculate_response_times.profiles addr).map finalizeProfile := by
  unfold finalize_profiles
  dsimp only
  rw [lookupA_map_value]

theorem finalize_profiles_threads (a : TemporalAnalyzer) :
    a.finalize_profiles.email_threads =
      a.email_threads.map sortThreadEntry := by
  unfold finalize_profiles
  dsimp only
  rw [crt_threads]

/-- The set of active hours recomputed by `finalizeProfile`. -/
noncomputable def activeOf (q : TemporalProfile) : List ℤ :=
  q.hourly_distribution.filterMap (fun hc =>
    if (q.total_emails : ℝ) * 0.05 ≤ (hc.2 : ℝ) then some hc.1 else none)

theorem finalizeProfile_fields (q : TemporalProfile) :
    (finalizeProfile q).hourly_distribution = q.hourly_distribution ∧
    (finalizeProfile q).daily_distribution = q.daily_distribution ∧
    (finalizeProfile q).observed_timezones = q.observed_timezones ∧
    (finalizeProfile q).total_emails = q.total_emails ∧
    (finalizeProfile q).response_times = q.response_times ∧
    (finalizeProfile q).primary_timezone =
      (if q.observed_timezones.isEmpty then q.primary_timezone
       else listMode q.observed_timezones) ∧
    (finalizeProfile q).active_hours =
      (if 0 < q.total_emails then activeOf q else q.active_hours) ∧
    (finalizeProfile q).avg_response_time =
      (if q.response_times.isEmpty then q.avg_response_time
       else listMean q.response_times) := by
  unfold finalizeProfile activeOf
  dsimp only
  split_ifs <;> simp_all

end TemporalAnalyzer

theorem listMean_append_self (l : List ℝ) (hl : l ≠ []) :
    listMean (l ++ l) = listMean l := by
  unfold listMean
  rw [List.sum_append, List.length_append]
  have hn : (0 : ℝ) < l.length := by
    have := List.length_pos.mpr hl
    exact_mod_cast this
  push_cast
  field_simp
  ring

/-- Finalizing twice: the second `finalize_profiles` preserves every
histogram field, the primary timezone, the active hours and the average
response time of each profile, but appends a second copy of every
response-time sample, provided every raw profile started with no
response-time samples (as is the case for any analyzer built by
`add_email` alone). -/
theorem finalize_profiles_second_pass (a : TemporalAnalyzer)
    (hempty : ∀ p ∈ a.profiles, p.2.response_times = [])
    (addr : String) (p1 : TemporalProfile)
    (h1 : lookupA a.finalize_profiles.profiles addr = some p1) :
    ∃ p2, lookupA a.finalize_profiles.finalize_profiles.profiles addr =
        some p2 ∧
      p2.hourly_distribution = p1.hourly_distribution ∧
      p2.daily_distribution = p1.daily_distribution ∧
      p2.observed_timezones = p1.observed_timezones ∧
      p2.total_emails = p1.total_emails ∧
      p2.primary_timezone = p1.primary_timezone ∧
      p2.active_hours = p1.active_hours ∧
      p2.avg_response_time = p1.avg_response_time ∧
      p2.response_times = p1.response_times ++ p1.response_times := by
  classical
  set D := TemporalAnalyzer.allDeltas a.email_threads with hD
  have hf1 : lookupA a.finalize_profiles.profiles addr =
      (lookupA ((D.foldl TemporalAnalyzer.appendRT a).profiles) addr).map
        TemporalAnalyzer.finalizeProfile := by
    rw [TemporalAnalyzer.finalize_profiles_lookup,
      TemporalAnalyzer.crt_profiles_lookup]
  have h1' := h1
  rw [hf1, TemporalAnalyzer.foldl_appendRT_lookup] at h1
  -- q1 : the profile entering finalizeProfile in pass one
  obtain ⟨q1, hq1eq, hq1rt⟩ :
      ∃ q1, p1 = TemporalAnalyzer.finalizeProfile q1 ∧
        q1.response_times = TemporalAnalyzer.keptFor D addr := by
    rcases hl : lookupA a.profiles addr with _ | p0
    · rw [hl] at h1
      dsimp only at h1
      by_cases hke : TemporalAnalyzer.keptFor D addr = []
      · rw [if_pos hke] at h1
        cases h1
      · rw [if_neg hke] at h1
        injection h1 with h1e
        exact ⟨_, h1e.symm, rfl⟩
    · rw [hl] at h1
      dsimp only at h1
      injection h1 with h1e
      have hrt0 : p0.response_times = [] := by
        rcases lookupA_mem hl with ⟨k', hk'⟩
        exact hempty _ hk'
      refine ⟨_, h1e.symm, ?_⟩
      dsimp only
      rw [hrt0]
      simp
  have hfq1 := TemporalAnalyzer.finalizeProfile_fields q1
  -- field equations for p1 in terms of q1
  have hP1h : p1.hourly_distribution = q1.hourly_distribution := by
    rw [hq1eq, hfq1.1]
  have hP1d : p1.daily_distribution = q1.daily_distribution := by
    rw [hq1eq, hfq1.2.1]
  have hP1o : p1.observed_timezones = q1.observed_timezones := by
    rw [hq1eq, hfq1.2.2.1]
  have hP1t : p1.total_emails = q1.total_emails := by
    rw [hq1eq, hfq1.2.2.2.1]
  have hP1rt : p1.response_times = TemporalAnalyzer.keptFor D addr := by
    rw [hq1eq, hfq1.2.2.2.2.1, hq1rt]
  have hP1p : p1.primary_timezone =
      (if q1.observed_timezones.isEmpty then q1.primary_timezone
       else listMode q1.observed_timezones) := by
    rw [hq1eq, hfq1.2.2.2.2.2.1]
  have hP1a : p1.active_hours =
      (if 0 < q1.total_emails then TemporalAnalyzer.activeOf q1
       else q1.active_hours) := by
    rw [hq1eq, hfq1.2.2.2.2.2.2.1]
  have hP1avg : p1.avg_response_time =
      (if q1.response_times.isEmpty then q1.avg_response_time
       else listMean q1.response_times) := by
    rw [hq1eq, hfq1.2.2.2.2.2.2.2]
  -- the second finalize
  have hthreads2 : TemporalAnalyzer.allDeltas
      a.finalize_profiles.email_threads = D := by
    rw [TemporalAnalyzer.finalize_profiles_threads,
      TemporalAnalyzer.allDeltas_map_sort]
  have hf2 : lookupA a.finalize_profiles.finalize_profiles.profiles addr =
      (lookupA ((D.foldl TemporalAnalyzer.appendRT
        a.finalize_profiles).profiles) addr).map
        TemporalAnalyzer.finalizeProfile := by
    rw [TemporalAnalyzer.finalize_profiles_lookup,
      TemporalAnalyzer.crt_profiles_lookup, hthreads2]
  rw [TemporalAnalyzer.foldl_appendRT_lookup, h1'] at hf2
  dsimp only at hf2
  set q2 : TemporalProfile :=
    { p1 with response_times :=
        p1.response_times ++ TemporalAnalyzer.keptFor D addr } with hq2
  have hfq2 := TemporalAnalyzer.finalizeProfile_fields q2
  -- field equations for q2 in terms of p1
  have hQ2h : q2.hourly_distribution = p1.hourly_distribution := rfl
  have hQ2d : q2.daily_distribution = p1.daily_distribution := rfl
  have hQ2o : q2.observed_timezones = p1.observed_timezones := rfl
  have hQ2t : q2.total_emails = p1.total_emails := rfl
  have hQ2p : q2.primary_timezone = p1.primary_timezone := rfl
  have hQ2a : q2.active_hours = p1.active_hours := rfl
  have hQ2avg : q2.avg_response_time = p1.avg_response_time := rfl
  have hQ2rt : q2.response_times =
      TemporalAnalyzer.keptFor D addr ++ TemporalAnalyzer.keptFor D addr := by
    rw [hq2]
    dsimp only
    rw [hP1rt]
  refine ⟨TemporalAnalyzer.finalizeProfile q2, hf2,
    ?_, ?_, ?_, ?_, ?_, ?_, ?_, ?_⟩
  · rw [hfq2.1, hQ2h]
  · rw [hfq2.2.1, hQ2d]
  · rw [hfq2.2.2.1, hQ2o]
  · rw [hfq2.2.2.2.1, hQ2t]
  · -- primary timezone
    rw [hfq2.2.2.2.2.2.1, hQ2o, hQ2p, hP1o, hP1p]
    by_cases ho : q1.observed_timezones.isEmpty <;> simp [ho]
  · -- active hours
    rw [hfq2.2.2.2.2.2.2.1, hQ2t, hP1t]
    have hact : TemporalAnalyzer.activeOf q2 = TemporalAnalyzer.activeOf q1 := by
      unfold TemporalAnalyzer.activeOf
      rw [hQ2t, hQ2h, hP1t, hP1h]
    rw [hact, hQ2a, hP1a]
    by_cases ht : 0 < q1.total_emails <;> simp [ht]
  · -- average response time
    rw [hfq2.2.2.2.2.2.2.2, hQ2rt, hQ2avg]
    by_cases hde : TemporalAnalyzer.keptFor D addr = []
    · rw [hde]
      rw [if_pos (by decide : ([] ++ [] : List ℝ).isEmpty = true)]
    · have hne : (TemporalAnalyzer.keptFor D addr ++
          TemporalAnalyzer.keptFor D addr).isEmpty = false := by
        rcases hcase : TemporalAnalyzer.keptFor D addr with _ | ⟨x, xs⟩
        · exact absurd hcase hde
        · rfl
      rw [if_neg (by rw [hne]; exact Bool.false_ne_true)]
      rw [listMean_append_self _ hde, hP1avg, hq1rt]
      rw [if_neg (by
        rcases hcase : TemporalAnalyzer.keptFor D addr with _ | ⟨x, xs⟩
        · exact absurd hcase hde
        · exact Bool.false_ne_true)]
  · -- response times double
    rw [hfq2.2.2.2.2.1, hQ2rt, hP1rt]

/-- `keptFor` on a pair passing the responder filter. -/
theorem keptFor_cons_pos (d : String × ℝ) (ds : List (String × ℝ))
    (addr : String) (h : pyLower d.1 = addr ∧ 0 < d.2 ∧ d.2 < 10080) :
    TemporalAnalyzer.keptFor (d :: ds) addr =
      d.2 :: TemporalAnalyzer.keptFor ds addr := by
  unfold TemporalAnalyzer.keptFor
  rw [List.filterMap_cons, if_pos h]

/-- First training record of the C7 scorer: alice opens thread `m0`. -/
def eC7a : EmailToAnalyze :=
  { from_addr := "alice@ext.com", to_addr := "cfo@acme.com",
    subject := "numbers", body := "see note", timestamp := 0,
    message_id := "m1", in_reply_to := "m0" }

/-- Second training record: bob replies ten minutes later. -/
def eC7b : EmailToAnalyze :=
  { from_addr := "bob@ext.com", to_addr := "cfo@acme.com",
    subject := "re numbers", body := "see note", timestamp := 600,
    message_id := "m2", in_reply_to := "m0" }

/-- Third training record: bob replies again thirty minutes after that. -/
def eC7c : EmailToAnalyze :=
  { from_addr := "bob@ext.com", to_addr := "cfo@acme.com",
    subject := "re numbers", body := "see note", timestamp := 2400,
    message_id := "m3", in_reply_to := "m0" }

/-- The C7 scorer: three training emails in one reply thread. -/
def sC7 : BECScorer :=
  (((BECScorer.init "acme.com").train_on_email eC7a).train_on_email
    eC7b).train_on_email eC7c

/-- The temporal event recorded for `eC7a`. -/
def evC7a : EmailEvent :=
  { sender := "alice@ext.com", recipient := "cfo@acme.com", timestamp := 0,
    timezone_offset := 0, response_to := some "m0", message_id := "m1" }

/-- The temporal event recorded for `eC7b`. -/
def evC7b : EmailEvent :=
  { sender := "bob@ext.com", recipient := "cfo@acme.com", timestamp := 600,
    timezone_offset := 0, response_to := some "m0", message_id := "m2" }

/-- The temporal event recorded for `eC7c`. -/
def evC7c : EmailEvent :=
  { sender := "bob@ext.com", recipient := "cfo@acme.com", timestamp := 2400,
    timezone_offset := 0, response_to := some "m0", message_id := "m3" }

/-- The temporal analyzer accumulated by the C7 scorer's training. -/
def tC7 : TemporalAnalyzer :=
  { profiles :=
      [("alice@ext.com",
        { address := "alice@ext.com", hourly_distribution := [(0, 1)],
          daily_distribution := [(3, 1)], observed_timezones := [0],
          total_emails := 1 }),
       ("bob@ext.com",
        { address := "bob@ext.com", hourly_distribution := [(0, 2)],
          daily_distribution := [(3, 2)], observed_timezones := [0, 0],
          total_emails := 2 })],
    email_threads := [("m0", [evC7a, evC7b, evC7c])] }

theorem tC7_eq : sC7.temporal_analyzer = tC7 := rfl

/-- Bob's raw profile after training. -/
def pB0 : TemporalProfile :=
  { address := "bob@ext.com", hourly_distribution := [(0, 2)],
    daily_distribution := [(3, 2)], observed_timezones := [0, 0],
    total_emails := 2 }

/-- Bob's profile after one finalize: samples 10 and 30 minutes, mean 20,
sample standard deviation `sqrt 200`. -/
noncomputable def pB1 : TemporalProfile :=
  { pB0 with
    response_times := [10, 30]
    avg_response_time := 20
    std_response_time := Real.sqrt 200
    primary_timezone := 0
    active_hours := [0] }

/-- Bob's profile after two finalizes: every sample duplicated, mean
still 20 but sample standard deviation `sqrt (400 / 3)`. -/
noncomputable def pB2 : TemporalProfile :=
  { pB0 with
    response_times := [10, 30, 10, 30]
    avg_response_time := 20
    std_response_time := Real.sqrt (400 / 3)
    primary_timezone := 0
    active_hours := [0] }

/-- The response deltas of the C7 thread: bob answered after 10 and after
30 minutes. -/
theorem allDeltas_tC7 :
    TemporalAnalyzer.allDeltas tC7.email_threads =
      [("bob@ext.com", (10 : ℝ)), ("bob@ext.com", (30 : ℝ))] := by
  show TemporalAnalyzer.allDeltas [("m0", [evC7a, evC7b, evC7c])] = _
  unfold TemporalAnalyzer.allDeltas
  rw [List.flatMap_cons, List.flatMap_nil, List.append_nil]
  dsimp only
  rw [if_neg (by norm_num : ¬ ([evC7a, evC7b, evC7c].length < 2))]
  rw [show TemporalAnalyzer.sortEvents [evC7a, evC7b, evC7c] =
    [evC7a, evC7b, evC7c] from rfl]
  unfold TemporalAnalyzer.threadDeltas
  simp [evC7a, evC7b, evC7c]
  norm_num

/-- The kept response samples attributed to bob. -/
theorem keptFor_tC7 :
    TemporalAnalyzer.keptFor
      [("bob@ext.com", (10 : ℝ)), ("bob@ext.com", (30 : ℝ))]
      "bob@ext.com" = [10, 30] := by
  rw [keptFor_cons_pos ("bob@ext.com", (10 : ℝ))
      [("bob@ext.com", (30 : ℝ))] "bob@ext.com"
      ⟨rfl, by norm_num, by norm_num⟩,
    keptFor_cons_pos ("bob@ext.com", (30 : ℝ)) [] "bob@ext.com"
      ⟨rfl, by norm_num, by norm_num⟩]
  rfl

/-- Evaluating the statistics pass on bob's raw profile. -/
theorem finalizeProfile_pB1 :
    TemporalAnalyzer.finalizeProfile
      { pB0 with response_times := pB0.response_times ++ [10, 30] } =
      pB1 := by
  show TemporalAnalyzer.finalizeProfile
    { address := "bob@ext.com", hourly_distribution := [(0, 2)],
      daily_distribution := [(3, 2)], response_times := [10, 30],
      observed_timezones := [0, 0], total_emails := 2,
      avg_response_time := 0.0, std_response_time := 0.0,
      primary_timezone := 0, active_hours := [] } = pB1
  unfold TemporalAnalyzer.finalizeProfile pB1 pB0
  norm_num [listMean, listStdev, listMode, pyMax, TemporalProfile.mk.injEq,
    List.filterMap_cons, List.filterMap_nil]

/-- Evaluating the statistics pass on bob's once-finalized profile with
the re-appended samples. -/
theorem finalizeProfile_pB2 :
    TemporalAnalyzer.finalizeProfile
      { pB1 with response_times := pB1.response_times ++ [10, 30] } =
      pB2 := by
  show TemporalAnalyzer.finalizeProfile
    { address := "bob@ext.com", hourly_distribution := [(0, 2)],
      daily_distribution := [(3, 2)], response_times := [10, 30, 10, 30],
      observed_timezones := [0, 0], total_emails := 2,
      avg_response_time := 20, std_response_time := Real.sqrt 200,
      primary_timezone := 0, active_hours := [0] } = pB2
  unfold TemporalAnalyzer.finalizeProfile pB2 pB0
  norm_num [listMean, listStdev, listMode, pyMax, TemporalProfile.mk.injEq,
    List.filterMap_cons, List.filterMap_nil]

/-- Bob's profile after one `finalize_profiles`. -/
theorem lookup_bob_one :
    lookupA tC7.finalize_profiles.profiles "bob@ext.com" = some pB1 := by
  rw [TemporalAnalyzer.finalize_profiles_lookup,
    TemporalAnalyzer.crt_profiles_lookup, allDeltas_tC7,
    TemporalAnalyzer.foldl_appendRT_lookup,
    show lookupA tC7.profiles "bob@ext.com" = some pB0 from rfl]
  dsimp only
  rw [keptFor_tC7]
  exact congrArg some finalizeProfile_pB1

/-- Bob's profile after a second `finalize_profiles`. -/
theorem lookup_bob_two :
    lookupA tC7.finalize_profiles.finalize_profiles.profiles
      "bob@ext.com" = some pB2 := by
  have hth : TemporalAnalyzer.allDeltas
      tC7.finalize_profiles.email_threads =
      [("bob@ext.com", (10 : ℝ)), ("bob@ext.com", (30 : ℝ))] := by
    rw [TemporalAnalyzer.finalize_profiles_threads,
      TemporalAnalyzer.allDeltas_map_sort, allDeltas_tC7]
  rw [TemporalAnalyzer.finalize_profiles_lookup,
    TemporalAnalyzer.crt_profiles_lookup, hth,
    TemporalAnalyzer.foldl_appendRT_lookup, lookup_bob_one]
  dsimp only
  rw [keptFor_tC7]
  exact congrArg some finalizeProfile_pB2

/-- Counterexample to claim C7: after training on one thread in which
bob answered after 10 and after 30 minutes, one `finalize_training`
records bob's sample standard deviation as `sqrt 200`, but a second
`finalize_training` on the unchanged training set re-appends both
samples and changes it to `sqrt (400 / 3)` — the profiles are not
statistically identical, so `finalize_training` is not idempotent. -/
theorem claim_C7_counterexample :
    (lookupA (sC7.finalize_training 0).temporal_analyzer.profiles
        "bob@ext.com").map (fun p => p.std_response_time) =
      some (Real.sqrt 200) ∧
    (lookupA (((sC7.finalize_training 0).finalize_training
        0).temporal_analyzer.profiles) "bob@ext.com").map
        (fun p => p.std_response_time) = some (Real.sqrt (400 / 3)) ∧
    Real.sqrt 200 ≠ Real.sqrt (400 / 3) := by
  refine ⟨?_, ?_, ?_⟩
  · have h : lookupA (sC7.finalize_training 0).temporal_analyzer.profiles
        "bob@ext.com" = some pB1 := lookup_bob_one
    rw [h]
    rfl
  · have h : lookupA (((sC7.finalize_training 0).finalize_training
        0).temporal_analyzer.profiles) "bob@ext.com" = some pB2 :=
      lookup_bob_two
    rw [h]
    rfl
  · intro hcon
    have h2 := (Real.sqrt_inj (by norm_num) (by norm_num)).mp hcon
    norm_num at h2

/-- Claim C7, amended: a second `finalize_training` on an unchanged
training set (any scorer whose raw temporal profiles carry no
response-time samples, as after training alone) leaves every temporal
profile's hour and day histograms, observed timezones, email total,
primary timezone, active hours and average response time unchanged, but
appends a second copy of every response-time sample, so the sample
standard deviation is in general changed: `finalize_training` is not
idempotent on the stored samples. -/
theorem claim_C7_amended_second_finalize (s : BECScorer) (t1 t2 : ℤ)
    (hempty : ∀ p ∈ s.temporal_analyzer.profiles, p.2.response_times = [])
    (addr : String) (p1 : TemporalProfile)
    (h1 : lookupA (s.finalize_training t1).temporal_analyzer.profiles
      addr = some p1) :
    ∃ p2, lookupA (((s.finalize_training t1).finalize_training
        t2).temporal_analyzer.profiles) addr = some p2 ∧
      p2.hourly_distribution = p1.hourly_distribution ∧
      p2.daily_distribution = p1.daily_distribution ∧
      p2.observed_timezones = p1.observed_timezones ∧
      p2.total_emails = p1.total_emails ∧
      p2.primary_timezone = p1.primary_timezone ∧
      p2.active_hours = p1.active_hours ∧
      p2.avg_response_time = p1.avg_response_time ∧
      p2.response_times = p1.response_times ++ p1.response_times := by
  have h1' : lookupA s.temporal_analyzer.finalize_profiles.profiles addr =
      some p1 := h1
  exact finalize_profiles_second_pass s.temporal_analyzer hempty addr p1 h1'

/-- A raw profile with no accumulated samples. -/
def pW : TemporalProfile := { address := "w@x" }

/-- A scorer holding exactly the raw profile `pW`. -/
def sW : BECScorer :=
  { trust_graph := TrustGraph.init "acme.com"
    temporal_analyzer := { profiles := [("w@x", pW)] }
    stylometry_engine := {}
    is_trained := false }

/-- Witness for the amended claim C7 at the concrete scorer `sW`. -/
theorem claim_C7_amended_second_finalize_witness :
    ∃ p2, lookupA (((sW.finalize_training 0).finalize_training
        0).temporal_analyzer.profiles) "w@x" = some p2 ∧
      p2.hourly_distribution = pW.hourly_distribution ∧
      p2.daily_distribution = pW.daily_distribution ∧
      p2.observed_timezones = pW.observed_timezones ∧
      p2.total_emails = pW.total_emails ∧
      p2.primary_timezone = pW.primary_timezone ∧
      p2.active_hours = pW.active_hours ∧
      p2.avg_response_time = pW.avg_response_time ∧
      p2.response_times = pW.response_times ++ pW.response_times :=
  claim_C7_amended_second_finalize sW 0 0
    (fun p hp => by
      have hmem : p ∈ [("w@x", pW)] := hp
      rw [List.mem_singleton] at hmem
      subst hmem
      rfl)
    "w@x" pW rfl
